import Mathlib

/-
Shallow embedding of the BSDF texture baker add-on (bake_operator.py,
properties.py) and verification of its specification claims.

Modelling conventions:
- Blender data blocks (scene render settings, objects, materials, node
  trees, images, UV layers) are plain Lean structures collected in a
  `BState` record; mutation is explicit state passing.
- External services that may fail (os.makedirs, bpy.ops.object.bake,
  Image.save, reading image pixels) are parametrised by an oracle `Orc`.
- Python exceptions are modelled by explicit control flow: handled
  exceptions follow the source's except/finally paths; the unhandled
  UnboundLocalError that can escape `execute` is an `Except.error`
  carrying the state at the moment the error propagates.
- Report messages are structured constructors carrying the interpolated
  names instead of formatted strings.
- Pixel values are rationals (the algorithmic content of the tolerance
  comparison, not IEEE rounding, is what the claims are about).
-/

namespace BsdfBaker

/-- Color space / precision settings of a Blender image, plus the data the
solid-color check reads.  `readRaises` models `image.pixels[:]` raising. -/
structure Image where
  name : String
  width : Nat
  height : Nat
  alpha : Bool
  channels : Nat
  generated_color : ℚ × ℚ × ℚ × ℚ
  colorspace : String
  use_generated_float : Bool
  has_data : Bool
  pixels : List ℚ
  readRaises : Bool
  filepath_raw : String
  file_format : String
deriving DecidableEq

/-- A node in a material node tree (`material.node_tree.nodes`). -/
structure Node where
  ntype : String
  name : String
  label : String
  image : Option String
  node_selected : Bool
deriving DecidableEq

/-- A material: `use_nodes` flag and its node tree. -/
structure Material where
  name : String
  use_nodes : Bool
  nodes : List Node
  active_node : Option String
deriving DecidableEq

/-- A UV layer of a mesh (`mesh.uv_layers[i]`). -/
structure UVLayer where
  name : String
  active_render : Bool
deriving DecidableEq

/-- A scene object; `otype` is `object.type` (e.g. "MESH"). -/
structure Obj where
  name : String
  otype : String
  uv_layers : List UVLayer
  uv_active_index : Option Nat
  active_material : Option Material
  material_slots : List (Option Material)
deriving DecidableEq

/-- Scene-level render and bake settings touched by the operator. -/
structure Scene where
  engine : String
  cycles_samples : Nat
  use_selected_to_active : Bool
  use_pass_direct : Bool
  use_pass_indirect : Bool
  use_pass_color : Bool
  normal_space : String
  normal_r : String
  normal_g : String
  normal_b : String
deriving DecidableEq

/-- A file written to disk by `image.save()`, with the image attributes in
force at the moment of saving. -/
structure SavedFile where
  path : String
  file_format : String
  colorspace : String
  use_generated_float : Bool
  pixels : List ℚ
deriving DecidableEq

/-- Structured model of `self.report({...}, msg)` calls: constructor per
message, carrying the interpolated names. -/
inductive Report where
  | errorNoActiveObject
  | errorNotMesh (objName : String)
  | warnMultiSelect
  | errorNoUV (objName : String)
  | warnAutoRenderUV (objName layerName : String)
  | errorNoMaterial (objName : String)
  | errorNodesDisabled (matName : String)
  | errorNoPrincipled (matName : String)
  | errorSlotMissing (matName : String)
  | errorSetMaterialFailed (matName : String)
  | errorSetup
  | errorBakeFailed (mapType : String)
  | warnSolidNormal (imageName : String)
  | errorSaveFailed (imageName : String)
  | infoFinished (outputPath : String)
  | errorProcessFailed
deriving DecidableEq

/-- The whole mutable Blender session the operator touches.  `bake_calls`
is a ghost trace of `bpy.ops.object.bake(type=...)` invocations. -/
structure BState where
  scene : Scene
  view_layer : List String
  selected : List String
  active_object : Option String
  objs : List Obj
  images : List Image
  dirs : List String
  files : List SavedFile
  reports : List Report
  bake_calls : List String
deriving DecidableEq

/-- The add-on's property group (properties.py). -/
structure Props where
  texture_size : Nat
  output_folder : String
  subfolder_for_size : Bool
  bake_diffuse : Bool
  bake_roughness : Bool
  bake_normal : Bool
  bake_ao : Bool
deriving DecidableEq

/-- Oracle for the external services: whether `os.makedirs` succeeds,
what pixels `bpy.ops.object.bake` produces (`none` = the bake raises),
and whether `image.save()` succeeds for a given image name. -/
structure Orc where
  makedirs_ok : Bool
  bake : String → Option (List ℚ)
  save_ok : String → Bool

/-- Model of the operator status sets `{'FINISHED'}` / `{'CANCELLED'}`. -/
inductive BStatus where
  | FINISHED
  | CANCELLED
deriving DecidableEq

/-- An unhandled Python error escaping `execute`, carrying the session
state at the moment it propagates. -/
inductive PyErr where
  | unboundLocal (s : BState)
deriving DecidableEq

/-! ### Small state helpers -/

def addReport (r : Report) (s : BState) : BState :=
  { s with reports := s.reports ++ [r] }

def imageExists (s : BState) (nm : String) : Bool :=
  s.images.any (fun i => i.name = nm)

def removeImage (nm : String) (s : BState) : BState :=
  { s with images := s.images.filter (fun i => ¬ i.name = nm) }

def addImage (i : Image) (s : BState) : BState :=
  { s with images := s.images ++ [i] }

def getImage (s : BState) (nm : String) : Option Image :=
  s.images.find? (fun i => i.name = nm)

def updImage (nm : String) (f : Image → Image) (s : BState) : BState :=
  { s with images := s.images.map (fun i => if i.name = nm then f i else i) }

def lookupObj (s : BState) (nm : String) : Option Obj :=
  s.objs.find? (fun o => o.name = nm)

def updObj (nm : String) (f : Obj → Obj) (s : BState) : BState :=
  { s with objs := s.objs.map (fun o => if o.name = nm then f o else o) }

/-- `context.active_object` (the object data the active-object name
refers to). -/
def getActiveObj (s : BState) : Option Obj :=
  s.active_object.bind (fun nm => lookupObj s nm)

/-- Update the node tree of the active material of the named object
(reference path `model.active_material.node_tree.nodes`). -/
def updNodes (modelName : String) (f : List Node → List Node) (s : BState) : BState :=
  updObj modelName
    (fun o => { o with active_material :=
      o.active_material.map (fun m => { m with nodes := f m.nodes }) }) s

/-! ### create_image (source lines 314-337) -/

/-- `AUTOBAKE_OT_BakeMaps.create_image`: a fresh square image buffer with
alpha; fill color, color space and float precision set by map type. -/
def create_image (name : String) (size : Nat) (map_type : String) : Image :=
  let image : Image :=
    { name := name, width := size, height := size, alpha := true,
      channels := 4, generated_color := (0, 0, 0, 1), colorspace := "sRGB",
      use_generated_float := false, has_data := true, pixels := [],
      readRaises := false, filepath_raw := "", file_format := "" }
  if map_type = "Normal" then
    { image with generated_color := (1/2, 1/2, 1, 1),
                 colorspace := "Non-Color", use_generated_float := true }
  else if map_type = "Roughness" ∨ map_type = "Metallic" ∨ map_type = "AO" then
    { image with generated_color := (1/2, 1/2, 1/2, 1),
                 colorspace := "Non-Color" }
  else
    { image with generated_color := (0, 0, 0, 1), colorspace := "sRGB" }

/-! ### is_image_solid_color (source lines 339-382) -/

/-- The tolerance used by the solid-color check. -/
def tolerance : ℚ := 1/100

/-- Channel-by-channel comparison of one pixel against the first pixel
(the inner `for j in range(channels)` loop): `true` iff some channel
differs by more than the tolerance. -/
def chunkDiffers (first cur : List ℚ) : Bool :=
  (first.zip cur).any (fun p => tolerance < |p.1 - p.2|)

/-- Fuel-driven chunking worker (structural recursion so that the kernel
can evaluate it; `l.length` fuel always suffices since every step drops
at least one element). -/
def pyChunksF : Nat → Nat → List ℚ → List (List ℚ)
  | 0, _, _ => []
  | fuel + 1, ch, l =>
    if ch = 0 ∨ l = [] then []
    else (l.take ch) :: pyChunksF fuel ch (l.drop ch)

/-- Successive `channels`-sized slices of the flat pixel list
(`pixels[i:i+channels]` for `i = 0, channels, 2*channels, ...`). -/
def pyChunks (ch : Nat) (l : List ℚ) : List (List ℚ) :=
  pyChunksF l.length ch l

/-- `AUTOBAKE_OT_BakeMaps.is_image_solid_color`, translated clause for
clause: the outer guard, the (unreachable) empty-copy branch, the
zero-channels branch, and the chunked comparison loop with its
partial-chunk `continue`. -/
def is_image_solid_color (image : Image) : Bool :=
  let width := image.width
  let height := image.height
  if image.has_data = false ∨ image.pixels = [] ∨ width = 0 ∨ height = 0 then
    false
  else if image.readRaises then
    false
  else
    let pixels := image.pixels
    if pixels = [] then true
    else if image.channels = 0 then true
    else
      let first_pixel_color := pixels.take image.channels
      ((pyChunks image.channels pixels).drop 1).all
        (fun cur =>
          if ¬ cur.length = image.channels then true
          else ! chunkDiffers first_pixel_color cur)

/-! ### validateRequirements (source lines 212-312) -/

/-- The validated bake context returned on success
(`{'status': {'FINISHED'}, 'model': ..., 'material': ..., 'principled_node': ...}`). -/
structure VCtx where
  modelName : String
  material : Material
  principled : Node
deriving DecidableEq

/-- Promote the first UV layer to active-for-render
(`first_layer.active_render = True`). -/
def promoteFirstUV : List UVLayer → List UVLayer
  | [] => []
  | l :: rest => { l with active_render := true } :: rest

/-- The `for node in material.node_tree.nodes` scan: keeps overwriting
`principled_node`, so the last Principled BSDF node in the list wins. -/
def findPrincipled (nodes : List Node) : Option Node :=
  nodes.foldl (fun acc n => if n.ntype = "BSDF_PRINCIPLED" then some n else acc) none

/-- Source lines 260-273: if no UV layer is active for editing, activate
the render layer (by its index). -/
def ensureActiveUV (model : Obj) (s : BState) : Obj × BState :=
  if model.uv_active_index = none then
    let idx := model.uv_layers.findIdx (fun l => l.active_render)
    ({ model with uv_active_index := some idx },
     updObj model.name (fun o => { o with uv_active_index := some idx }) s)
  else (model, s)

/-- Material-phase checks of validateRequirements (source lines 260-312):
ensure an active UV layer index, then active material, use_nodes, and
Principled node; `model` is the local variable holding the (possibly
UV-promoted) active object. -/
def validateMaterial (model : Obj) (s : BState) : Option VCtx × BState :=
  let model1 := (ensureActiveUV model s).1
  let s1 := (ensureActiveUV model s).2
  match model1.active_material with
  | none => (none, addReport (.errorNoMaterial model1.name) s1)
  | some material =>
    if material.use_nodes = false then
      (none, addReport (.errorNodesDisabled material.name) s1)
    else
      match findPrincipled material.nodes with
      | none => (none, addReport (.errorNoPrincipled material.name) s1)
      | some principled => (some ⟨model1.name, material, principled⟩, s1)

/-- `AUTOBAKE_OT_BakeMaps.validateRequirements`: active-object and mesh
checks, multi-selection warning, UV-layer checks with auto-promotion of
the first layer to active-for-render, then the material-phase checks. -/
def validateRequirements (s : BState) : Option VCtx × BState :=
  match getActiveObj s with
  | none => (none, addReport .errorNoActiveObject s)
  | some model =>
    if ¬ model.otype = "MESH" then (none, addReport (.errorNotMesh model.name) s)
    else
      let s1 := if s.selected.length > 1 then addReport .warnMultiSelect s else s
      if model.uv_layers = [] then (none, addReport (.errorNoUV model.name) s1)
      else
        match model.uv_layers.find? (fun l => l.active_render) with
        | some _ => validateMaterial model s1
        | none =>
          match model.uv_layers with
          | [] => (none, addReport (.errorNoUV model.name) s1)
          | first :: rest =>
            let model1 := { model with
              uv_layers := { first with active_render := true } :: rest }
            let s2 := updObj model.name
              (fun o => { o with uv_layers := promoteFirstUV o.uv_layers }) s1
            let s3 := addReport (.warnAutoRenderUV model.name first.name) s2
            validateMaterial model1 s3

/-! ### Spec-side validation classifier (spec section 4.1)

This second definition follows the specification's wording: the ordered,
short-circuiting list of checks with the spec's error taxonomy.  It is
compared with `validateRequirements` in claim C8. -/

/-- The spec's ValidationError taxonomy. -/
inductive VErr where
  | NoActiveMesh
  | NotAMesh
  | NoUVMap
  | NoMaterial
  | NodesDisabled
  | NoPrincipledNode
deriving DecidableEq

/-- Modelled from the spec (section 4.1): the first failing check of the
ordered list (active mesh, UV layers, active material, nodes enabled,
Principled node present), or `none` when validation succeeds. -/
def specError (s : BState) : Option VErr :=
  match getActiveObj s with
  | none => some .NoActiveMesh
  | some model =>
    if ¬ model.otype = "MESH" then some .NotAMesh
    else if model.uv_layers = [] then some .NoUVMap
    else match model.active_material with
      | none => some .NoMaterial
      | some material =>
        if material.use_nodes = false then some .NodesDisabled
        else if material.nodes.filter (fun n => n.ntype = "BSDF_PRINCIPLED") = [] then
          some .NoPrincipledNode
        else none

/-- Which user-facing error report corresponds to which spec error. -/
def reportMatches : VErr → Report → Bool
  | .NoActiveMesh, .errorNoActiveObject => true
  | .NotAMesh, .errorNotMesh _ => true
  | .NoUVMap, .errorNoUV _ => true
  | .NoMaterial, .errorNoMaterial _ => true
  | .NodesDisabled, .errorNodesDisabled _ => true
  | .NoPrincipledNode, .errorNoPrincipled _ => true
  | _, _ => false

/-- First Principled BSDF node of the C8 witness material. -/
def c8nodeA : Node :=
  { ntype := "BSDF_PRINCIPLED", name := "Principled BSDF",
    label := "", image := none, node_selected := false }

/-- Second (last) Principled BSDF node of the C8 witness material. -/
def c8nodeB : Node :=
  { ntype := "BSDF_PRINCIPLED", name := "Principled BSDF.001",
    label := "", image := none, node_selected := false }

/-- The C8 witness material: nodes enabled, two Principled BSDF nodes. -/
def c8mat : Material :=
  { name := "Material", use_nodes := true,
    nodes := [c8nodeA,
      { ntype := "OUTPUT_MATERIAL", name := "Material Output",
        label := "", image := none, node_selected := false },
      c8nodeB],
    active_node := none }

/-- The scene settings used by the witness states. -/
def c8scene : Scene :=
  { engine := "BLENDER_EEVEE", cycles_samples := 128,
    use_selected_to_active := true, use_pass_direct := true,
    use_pass_indirect := true, use_pass_color := false,
    normal_space := "OBJECT", normal_r := "POS_X", normal_g := "POS_Y",
    normal_b := "POS_Z" }

/-- The cube object of the witness states. -/
def c8cube : Obj :=
  { name := "Cube", otype := "MESH",
    uv_layers := [{ name := "UVMap", active_render := true }],
    uv_active_index := some 0, active_material := some c8mat,
    material_slots := [some c8mat] }

def c8state : BState :=
  { scene := c8scene,
    view_layer := ["Cube"], selected := ["Cube"],
    active_object := some "Cube",
    objs := [c8cube],
    images := [], dirs := [], files := [], reports := [], bake_calls := [] }

/-- The cube of the C9 witness: one UV layer, not active for render. -/
def c9cube : Obj :=
  { name := "Cube", otype := "MESH",
    uv_layers := [{ name := "UVMap", active_render := false }],
    uv_active_index := none, active_material := some c8mat,
    material_slots := [some c8mat] }

def c9state : BState :=
  { scene := c8scene,
    view_layer := ["Cube"], selected := ["Cube"],
    active_object := some "Cube",
    objs := [c9cube],
    images := [], dirs := [], files := [], reports := [], bake_calls := [] }

/-! ### Bake-target node management (source lines 384-413) -/

/-- `AUTOBAKE_OT_BakeMaps.add_bake_image_node`: remove pre-existing
TEX_IMAGE nodes named "BakeTargetNode", then append a fresh selected
Image Texture node pointing at the bake image. -/
def add_bake_image_node (nodes : List Node) (imageName : String) : List Node :=
  let nodes1 := nodes.filter
    (fun n => ¬ (n.ntype = "TEX_IMAGE" ∧ n.name = "BakeTargetNode"))
  nodes1 ++
    [{ ntype := "TEX_IMAGE", name := "BakeTargetNode",
       label := "Bake Target (" ++ imageName ++ ")", image := some imageName,
       node_selected := true }]

/-- `AUTOBAKE_OT_BakeMaps.remove_bake_image_node`: `nodes.get(name)` then
remove it if present — i.e. remove the first node named "BakeTargetNode". -/
def remove_bake_image_node (nodes : List Node) : List Node :=
  nodes.eraseP (fun n => n.name = "BakeTargetNode")

/-- State-level wrapper for add_bake_image_node (also records
`nodes.active = image_node`). -/
def add_bake_node_state (modelName imageName : String) (s : BState) : BState :=
  updObj modelName
    (fun o =>
      { o with active_material :=
          o.active_material.map (fun m =>
            { m with nodes := add_bake_image_node m.nodes imageName,
                     active_node := some "BakeTargetNode" }) })
    s

/-- State-level wrapper for remove_bake_image_node. -/
def removeBakeNodeState (modelName : String) (s : BState) : BState :=
  updNodes modelName remove_bake_image_node s

/-- `bpy.ops.object.bake` success: write the produced pixels into the
target image buffer. -/
def writeBake (imageName : String) (px : List ℚ) (s : BState) : BState :=
  updImage imageName (fun i => { i with pixels := px, has_data := true }) s

/-- Ghost trace of bake-service invocations. -/
def recordBakeCall (t : String) (s : BState) : BState :=
  { s with bake_calls := s.bake_calls ++ [t] }

/-! ### Per-map bake methods (source lines 418-519) -/

/-- Source lines 446-448 / 477-479 / 501-503: force Non-Color if needed. -/
def forceNonColor (i : Image) : Image :=
  if ¬ i.colorspace = "Non-Color" then { i with colorspace := "Non-Color" } else i

/-- Source lines 449-451: enable 32-bit float if needed. -/
def forceFloat (i : Image) : Image :=
  if ¬ i.use_generated_float then { i with use_generated_float := true } else i

/-- `AUTOBAKE_OT_BakeMaps.bake_diffuse`: insert the bake node, configure
the diffuse passes, invoke the bake, and remove the node in the finally
block whether the bake succeeds or raises. -/
def bake_diffuse (orc : Orc) (modelName imageName : String) (s : BState) : Bool × BState :=
  let s1 := add_bake_node_state modelName imageName s
  let s2 :=
    { s1 with scene :=
        { s1.scene with
          use_pass_direct := false,
          use_pass_indirect := false, use_pass_color := true } }
  let s3 := recordBakeCall "DIFFUSE" s2
  match orc.bake "DIFFUSE" with
  | some px => (true, removeBakeNodeState modelName (writeBake imageName px s3))
  | none => (false, removeBakeNodeState modelName s3)

/-- `AUTOBAKE_OT_BakeMaps.bake_normal`: force Non-Color and 32-bit float
on the image, insert the bake node, configure the tangent-space settings,
bake, and remove the node in the finally block. -/
def bake_normal (orc : Orc) (modelName imageName : String) (s : BState) : Bool × BState :=
  let s0 := updImage imageName forceNonColor s
  let s0b := updImage imageName forceFloat s0
  let s1 := add_bake_node_state modelName imageName s0b
  let s2 :=
    { s1 with scene :=
        { s1.scene with
          normal_space := "TANGENT",
          normal_r := "POS_X", normal_g := "POS_Y", normal_b := "POS_Z" } }
  let s3 := recordBakeCall "NORMAL" s2
  match orc.bake "NORMAL" with
  | some px => (true, removeBakeNodeState modelName (writeBake imageName px s3))
  | none => (false, removeBakeNodeState modelName s3)

/-- `AUTOBAKE_OT_BakeMaps.bake_roughness`: force Non-Color, insert the
bake node, bake, and remove the node in the finally block. -/
def bake_roughness (orc : Orc) (modelName imageName : String) (s : BState) : Bool × BState :=
  let s0 := updImage imageName forceNonColor s
  let s1 := add_bake_node_state modelName imageName s0
  let s3 := recordBakeCall "ROUGHNESS" s1
  match orc.bake "ROUGHNESS" with
  | some px => (true, removeBakeNodeState modelName (writeBake imageName px s3))
  | none => (false, removeBakeNodeState modelName s3)

/-- `AUTOBAKE_OT_BakeMaps.bake_ao`: force Non-Color, insert the bake
node, bake, and remove the node in the finally block. -/
def bake_ao (orc : Orc) (modelName imageName : String) (s : BState) : Bool × BState :=
  let s0 := updImage imageName forceNonColor s
  let s1 := add_bake_node_state modelName imageName s0
  let s3 := recordBakeCall "AO" s1
  match orc.bake "AO" with
  | some px => (true, removeBakeNodeState modelName (writeBake imageName px s3))
  | none => (false, removeBakeNodeState modelName s3)

/-- Dispatch of the per-map bake method (the `map_types` tuple list of
source lines 97-102). -/
def bake_method (orc : Orc) (modelName imageName map_type : String) (s : BState) : Bool × BState :=
  if map_type = "Diffuse" then bake_diffuse orc modelName imageName s
  else if map_type = "Roughness" then bake_roughness orc modelName imageName s
  else if map_type = "Normal" then bake_normal orc modelName imageName s
  else bake_ao orc modelName imageName s

/-- The bake-service type string for each map type. -/
def bakeTypeOf (m : String) : String :=
  if m = "Diffuse" then "DIFFUSE"
  else if m = "Roughness" then "ROUGHNESS"
  else if m = "Normal" then "NORMAL"
  else "AO"

/-- Which map types the configuration requests. -/
def shouldBakeMap (props : Props) (m : String) : Bool :=
  if m = "Diffuse" then props.bake_diffuse
  else if m = "Roughness" then props.bake_roughness
  else if m = "Normal" then props.bake_normal
  else if m = "AO" then props.bake_ao
  else false

/-- The fixed iteration order of the per-map loop. -/
def map_types_order : List String := ["Diffuse", "Roughness", "Normal", "AO"]

/-- The mutable locals of the per-map loop (source lines 104-140). -/
structure LoopSt where
  s : BState
  bake_successful : Bool
  baked_images : List String
deriving DecidableEq

/-- One iteration of the per-map loop (source lines 111-140): remove a
name-colliding session image, create the buffer, run the bake method; on
success run the Normal solid-color check; on exception report, remove the
buffer from the session and the pending-save list. -/
def processOne (props : Props) (orc : Orc) (modelName map_type : String)
    (ls : LoopSt) : LoopSt :=
  let image_name := modelName ++ "_" ++ map_type
  let s0 := if imageExists ls.s image_name then removeImage image_name ls.s else ls.s
  let s1 := addImage (create_image image_name props.texture_size map_type) s0
  let baked := ls.baked_images ++ [image_name]
  match bake_method orc modelName image_name map_type s1 with
  | (true, s2) =>
    let s3 :=
      if map_type = "Normal" then
        match getImage s2 image_name with
        | some img =>
          if is_image_solid_color img then addReport (.warnSolidNormal image_name) s2
          else s2
        | none => s2
      else s2
    ⟨s3, true, baked⟩
  | (false, s2) =>
    let s3 := addReport (.errorBakeFailed map_type) s2
    let s4 := if imageExists s3 image_name then removeImage image_name s3 else s3
    let baked2 := if imageExists s3 image_name then baked.erase image_name else baked
    ⟨s4, false, baked2⟩

/-- The per-map loop: skip unrequested types, stop at the first failure
(the `break` of source line 140). -/
def processMaps (props : Props) (orc : Orc) (modelName : String) :
    List String → LoopSt → LoopSt
  | [], ls => ls
  | m :: rest, ls =>
    if shouldBakeMap props m = false then processMaps props orc modelName rest ls
    else
      let ls2 := processOne props orc modelName m ls
      if ls2.bake_successful then processMaps props orc modelName rest ls2
      else ls2

/-! ### Save phase (source lines 142-166) -/

/-- Python's `str.endswith`, on the character lists (String.endsWith
itself does not reduce in the kernel). -/
def strEndsWith (s suffix : String) : Bool :=
  suffix.data.isSuffixOf s.data

/-- Save one image (source lines 146-163): set the file path and PNG
format, re-force Non-Color for `_Normal` images, then write with the
attributes in force (`none` result = the save raised and was reported). -/
def saveOne (ok : Bool) (output_path : String) (image : Image) :
    Image × Option SavedFile :=
  let image1 :=
    { image with
      filepath_raw := output_path ++ "/" ++ image.name ++ ".png",
      file_format := "PNG" }
  let image2 :=
    if strEndsWith image1.name "_Normal" ∧ ¬ image1.colorspace = "Non-Color"
    then { image1 with colorspace := "Non-Color" } else image1
  if ok then
    (image2,
     some { path := image2.filepath_raw, file_format := image2.file_format,
            colorspace := image2.colorspace,
            use_generated_float := image2.use_generated_float,
            pixels := image2.pixels })
  else (image2, none)

/-- Overwrite the stored image (mutations through the Python reference). -/
def setImage (nm : String) (img : Image) (s : BState) : BState :=
  updImage nm (fun _ => img) s

/-- The save loop: a save failure is reported and marks the run failed
but does not stop the remaining saves. -/
def saveImages (orc : Orc) (output_path : String) :
    List String → (Bool × BState) → (Bool × BState)
  | [], acc => acc
  | nm :: rest, acc =>
    match getImage acc.2 nm with
    | some img =>
      let pr := saveOne (orc.save_ok nm) output_path img
      let s1 := setImage nm pr.1 acc.2
      match pr.2 with
      | some f =>
        saveImages orc output_path rest (acc.1, { s1 with files := s1.files ++ [f] })
      | none =>
        saveImages orc output_path rest (false, addReport (.errorSaveFailed nm) s1)
    | none => saveImages orc output_path rest acc

/-! ### Setup and teardown (source lines 46-94 and 174-209) -/

/-- Source lines 54-67: force Cycles, 32 samples, selected-to-active off,
deselect all, activate and select the model. -/
def applyBakeSettings (modelName : String) (s : BState) : BState :=
  let s1 :=
    { s with scene :=
        { s.scene with
          engine := "CYCLES",
          cycles_samples := 32, use_selected_to_active := false } }
  let s2 := { s1 with selected := [] }
  let s3 := { s2 with active_object := some modelName }
  { s3 with selected := s3.selected ++ [modelName] }

/-- Source lines 69-72: `bpy.path.abspath` (modelled as the identity on
the configured folder) plus the per-size subfolder. -/
def resolveOutputPath (props : Props) : String :=
  let p := props.output_folder
  if props.subfolder_for_size then p ++ "/" ++ toString props.texture_size else p

/-- Source lines 78-94: ensure the validated material is the active
material slot; `false` = a RuntimeError was raised. -/
def slotCheck (modelName : String) (material : Material) (s : BState) : Bool × BState :=
  match lookupObj s modelName with
  | none => (false, s)
  | some model =>
    if ¬ model.active_material = some material then
      match model.material_slots.findIdx? (fun slot => slot = some material) with
      | some i =>
        let s1 := updObj modelName
          (fun o => { o with active_material := o.material_slots.getD i none }) s
        match lookupObj s1 modelName with
        | none => (false, s1)
        | some model1 =>
          if model1.active_material = none ∨ ¬ model1.active_material = some material then
            (false, addReport (.errorSetMaterialFailed material.name) s1)
          else (true, s1)
      | none => (false, addReport (.errorSlotMissing material.name) s)
    else
      if model.active_material = none ∨ ¬ model.active_material = some material then
        (false, addReport (.errorSetMaterialFailed material.name) s)
      else (true, s)

/-- Source lines 176-183: remove every tracked image from the session. -/
def cleanupImages (baked : List String) (s : BState) : BState :=
  baked.foldl (fun st nm => if imageExists st nm then removeImage nm st else st) s

/-- Source lines 186-200: restore the snapshotted render engine, sample
count and selected-to-active flag, deselect all, re-select the surviving
snapshotted objects, and re-activate the snapshotted active object. -/
def restoreSettings (origEngine : String) (origSamples : Nat) (origS2A : Bool)
    (origActive : Option String) (origSelected : List String) (s : BState) : BState :=
  let s1 :=
    { s with scene :=
        { s.scene with
          engine := origEngine,
          cycles_samples := origSamples, use_selected_to_active := origS2A } }
  let s2 := { s1 with selected := [] }
  let s3 :=
    { s2 with selected := origSelected.filter (fun nm => s2.view_layer.contains nm) }
  match origActive with
  | some nm => if s3.view_layer.contains nm then { s3 with active_object := some nm } else s3
  | none => s3

/-- `AUTOBAKE_OT_BakeMaps.execute`.  A setup-phase exception (makedirs
failure or material-slot RuntimeError) is caught at source line 168, but
the finally block then evaluates `for image in baked_images:` (line 177)
before `baked_images` was ever assigned (line 105), so execute raises
UnboundLocalError: no settings are restored and no status is returned —
modelled as `Except.error` carrying the state at that moment. -/
def execute (props : Props) (orc : Orc) (s0 : BState) :
    Except PyErr (BStatus × BState) :=
  match validateRequirements s0 with
  | (none, s1) => .ok (.CANCELLED, s1)
  | (some v, s1) =>
    let original_engine := s1.scene.engine
    let original_render_samples := s1.scene.cycles_samples
    let original_use_selected_to_active := s1.scene.use_selected_to_active
    let original_active_object := s1.active_object
    let original_selected_objects := s1.selected
    let s2 := applyBakeSettings v.modelName s1
    let output_path := resolveOutputPath props
    if ¬ s2.dirs.contains output_path = true ∧ ¬ orc.makedirs_ok = true then
      .error (.unboundLocal (addReport .errorSetup s2))
    else
      let s3 := if s2.dirs.contains output_path then s2
        else { s2 with dirs := s2.dirs ++ [output_path] }
      match slotCheck v.modelName v.material s3 with
      | (false, s4) => .error (.unboundLocal (addReport .errorSetup s4))
      | (true, s4) =>
        let ls := processMaps props orc v.modelName map_types_order ⟨s4, true, []⟩
        let pr :=
          if ls.bake_successful ∧ ¬ ls.baked_images = []
          then saveImages orc output_path ls.baked_images (ls.bake_successful, ls.s)
          else (ls.bake_successful, ls.s)
        let s5 := cleanupImages ls.baked_images pr.2
        let s6 := restoreSettings original_engine original_render_samples
          original_use_selected_to_active original_active_object
          original_selected_objects s5
        if pr.1 then .ok (.FINISHED, addReport (.infoFinished output_path) s6)
        else .ok (.CANCELLED, addReport .errorProcessFailed s6)

/-! ### Claim C4: bake-target node discipline -/

/-- The node tree of the named object's active material. -/
def nodesOf (s : BState) (modelName : String) : Option (List Node) :=
  (lookupObj s modelName).bind (fun o => o.active_material.map (fun m => m.nodes))

/-- Number of nodes named "BakeTargetNode" in a node tree. -/
def countBakeTarget (nodes : List Node) : Nat :=
  nodes.countP (fun n => n.name = "BakeTargetNode")

/-- The predicate removed by add_bake_image_node's sweep. -/
def isStaleBakeNode (n : Node) : Bool :=
  n.ntype = "TEX_IMAGE" ∧ n.name = "BakeTargetNode"

/-- An oracle whose bake service always raises. -/
def failOrc : Orc :=
  { makedirs_ok := true, bake := fun _ => none, save_ok := fun _ => true }

/-- A Normal image buffer whose 32-bit float flag was cleared by some
step between the bake and the save. -/
def c5img : Image :=
  { create_image "Cube_Normal" 4 "Normal" with use_generated_float := false }

/-- Props for the C7 witness: only the Normal map requested, size 1. -/
def c7props : Props :=
  { texture_size := 1, output_folder := "out", subfolder_for_size := false,
    bake_diffuse := false, bake_roughness := false, bake_normal := true,
    bake_ao := false }

/-- Oracle for the C7 witness: every bake writes one solid RGBA pixel. -/
def c7orc : Orc :=
  { makedirs_ok := true, bake := fun _ => some [0, 0, 0, 1],
    save_ok := fun _ => true }

/-- The image stored after the witness Normal bake. -/
def c7img : Image :=
  { create_image "Cube_Normal" 1 "Normal" with pixels := [0, 0, 0, 1] }

/-- A small non-solid image for the characterization half. -/
def c7flat : Image :=
  { name := "W", width := 2, height := 1, alpha := true, channels := 1,
    generated_color := (0, 0, 0, 1), colorspace := "Non-Color",
    use_generated_float := false, has_data := true, pixels := [0, 1],
    readRaises := false, filepath_raw := "", file_format := "" }

/-- Configuration of the C3 witness: Diffuse and Roughness requested. -/
def c3props : Props :=
  { texture_size := 4, output_folder := "out", subfolder_for_size := false,
    bake_diffuse := true, bake_roughness := true, bake_normal := false,
    bake_ao := false }

/-- Oracle of the C3 witness: diffuse bakes succeed, everything else
raises; directory creation succeeds. -/
def c3orc : Orc :=
  { makedirs_ok := true,
    bake := fun t => if t = "DIFFUSE" then some [0, 0, 0, 1] else none,
    save_ok := fun _ => true }

/-- Oracle of the C2 failing input: `os.makedirs` raises. -/
def c2orc : Orc :=
  { makedirs_ok := false, bake := fun _ => none, save_ok := fun _ => true }

/-- Configuration of the C1 witness: no map type requested. -/
def c1props : Props :=
  { texture_size := 4, output_folder := "out", subfolder_for_size := false,
    bake_diffuse := false, bake_roughness := false, bake_normal := false,
    bake_ao := false }

/-- The result of the C1 witness run (a finished no-map bake). -/
def c1result : BStatus × BState :=
  (.FINISHED, addReport (.infoFinished "out")
    (restoreSettings "BLENDER_EEVEE" 128 true (some "Cube") ["Cube"]
      { applyBakeSettings "Cube" c8state with
        dirs := (applyBakeSettings "Cube" c8state).dirs ++ ["out"] }))

/-! ### Theorems -/

theorem pyChunksF_nil (f ch : Nat) : pyChunksF f ch [] = [] := by
  cases f with
  | zero => rfl
  | succ f => unfold pyChunksF; rw [if_pos (Or.inr rfl)]

theorem pyChunksF_fuel : ∀ (f1 : Nat) (l : List ℚ) (f2 ch : Nat),
    l.length ≤ f1 → l.length ≤ f2 → pyChunksF f1 ch l = pyChunksF f2 ch l := by
  intro f1
  induction f1 with
  | zero =>
    intro l f2 ch h1 h2
    have hl : l = [] := by
      cases l with
      | nil => rfl
      | cons a t => simp at h1
    subst hl
    rw [pyChunksF_nil, pyChunksF_nil]
  | succ f ih =>
    intro l f2 ch h1 h2
    by_cases hl : l = []
    · subst hl
      rw [pyChunksF_nil, pyChunksF_nil]
    · have hlen : 0 < l.length := List.length_pos.mpr hl
      obtain ⟨g, hg⟩ : ∃ g, f2 = g + 1 := ⟨f2 - 1, by omega⟩
      subst hg
      by_cases hch : ch = 0
      · unfold pyChunksF
        rw [if_pos (Or.inl hch), if_pos (Or.inl hch)]
      · unfold pyChunksF
        rw [if_neg (by simp [hch, hl]), if_neg (by simp [hch, hl])]
        have hd : (l.drop ch).length ≤ f := by
          rw [List.length_drop]; omega
        have hd2 : (l.drop ch).length ≤ g := by
          rw [List.length_drop]; omega
        rw [ih (l.drop ch) g ch hd hd2]

/-! ### Lemmas about the solid-color check -/

theorem pyChunks_nil (ch : Nat) : pyChunks ch [] = [] := rfl

theorem pyChunks_cons {ch : Nat} {l : List ℚ} (hch : ¬ ch = 0) (hl : ¬ l = []) :
    pyChunks ch l = l.take ch :: pyChunks ch (l.drop ch) := by
  unfold pyChunks
  have hlen : 0 < l.length := List.length_pos.mpr hl
  obtain ⟨n, hn⟩ : ∃ n, l.length = n + 1 := ⟨l.length - 1, by omega⟩
  rw [hn]
  rw [show pyChunksF (n + 1) ch l
      = if ch = 0 ∨ l = [] then [] else (l.take ch) :: pyChunksF n ch (l.drop ch) from rfl]
  rw [if_neg (by simp [hch, hl])]
  have hd : (l.drop ch).length ≤ n := by
    rw [List.length_drop]
    have : 0 < ch := Nat.pos_of_ne_zero hch
    omega
  exact congrArg _ (pyChunksF_fuel n (l.drop ch) (l.drop ch).length ch hd le_rfl)

theorem pyChunks_all_iff {P : List ℚ → Bool} {ch : Nat} (hch : ¬ ch = 0) :
    ∀ (n : Nat) (l : List ℚ), l.length ≤ n →
    ((pyChunks ch l).all P = true ↔
      ∀ i, ch * i < l.length → P ((l.drop (ch * i)).take ch) = true) := by
  intro n
  induction n with
  | zero =>
    intro l hn
    have hl : l = [] := by
      cases l with
      | nil => rfl
      | cons a t => simp at hn
    subst hl
    simp [pyChunks_nil]
  | succ n ih =>
    intro l hn
    by_cases hl : l = []
    · subst hl; simp [pyChunks_nil]
    · rw [pyChunks_cons hch hl]
      have hchpos : 0 < ch := Nat.pos_of_ne_zero hch
      have hlpos : 0 < l.length := List.length_pos.mpr hl
      have hdrop : (l.drop ch).length ≤ n := by
        rw [List.length_drop]; omega
      rw [List.all_cons, Bool.and_eq_true, ih (l.drop ch) hdrop]
      constructor
      · rintro ⟨h0, hrest⟩ i hi
        cases i with
        | zero => simpa using h0
        | succ i =>
          have hms : ch * (i + 1) = ch * i + ch := by ring
          have hb : ch * i < (l.drop ch).length := by
            rw [List.length_drop]; omega
          have h := hrest i hb
          rw [List.drop_drop] at h
          have he : ch + ch * i = ch * (i + 1) := by ring
          rw [he] at h
          exact h
      · intro hall
        refine ⟨?_, ?_⟩
        · have h := hall 0 (by simpa using hlpos)
          simpa using h
        · intro i hb
          have hms : ch * (i + 1) = ch * i + ch := by ring
          have hb2 : ch * (i + 1) < l.length := by
            rw [List.length_drop] at hb; omega
          have h := hall (i + 1) hb2
          rw [List.drop_drop]
          have he : ch + ch * i = ch * (i + 1) := by ring
          rw [he]
          exact h

theorem getD_take_of_lt {l : List ℚ} {ch j : Nat} (hj : j < ch) (hle : ch ≤ l.length) :
    (l.take ch).getD j 0 = l.getD j 0 := by
  have hj2 : j < (l.take ch).length := by
    rw [List.length_take]; exact lt_min hj (lt_of_lt_of_le hj hle)
  rw [List.getD_eq_getElem _ _ hj2, List.getElem_take,
    List.getD_eq_getElem _ _ (lt_of_lt_of_le hj hle)]

theorem getD_drop_of_lt {l : List ℚ} {m j : Nat} (h : m + j < l.length) :
    (l.drop m).getD j 0 = l.getD (m + j) 0 := by
  have hj2 : j < (l.drop m).length := by
    rw [List.length_drop]; omega
  rw [List.getD_eq_getElem _ _ hj2, List.getElem_drop, List.getD_eq_getElem _ _ h]

theorem chunkDiffers_eq_false {first cur : List ℚ} {n : Nat}
    (hf : first.length = n) (hc : cur.length = n) :
    (chunkDiffers first cur = false ↔
      ∀ j, j < n → |first.getD j 0 - cur.getD j 0| ≤ tolerance) := by
  unfold chunkDiffers
  rw [Bool.eq_false_iff, ne_eq, List.any_eq_true]
  push_neg
  constructor
  · intro h j hj
    have hmem : (first.getD j 0, cur.getD j 0) ∈ first.zip cur := by
      rw [List.mem_iff_getElem]
      refine ⟨j, ?_, ?_⟩
      · rw [List.length_zip, hf, hc]; exact lt_min hj hj
      · rw [List.getElem_zip,
          List.getD_eq_getElem first 0 (by rw [hf]; exact hj),
          List.getD_eq_getElem cur 0 (by rw [hc]; exact hj)]
    have := h _ hmem
    simpa using this
  · intro h x hx
    rw [List.mem_iff_getElem] at hx
    obtain ⟨j, hjlen, hje⟩ := hx
    have hjn : j < n := by
      rw [List.length_zip, hf, hc] at hjlen
      exact (lt_min_iff.mp hjlen).1
    have hle := h j hjn
    rw [List.getD_eq_getElem first 0 (by rw [hf]; exact hjn),
      List.getD_eq_getElem cur 0 (by rw [hc]; exact hjn)] at hle
    rw [← hje, List.getElem_zip]
    simpa using hle

/-- Characterization of the solid-color check on a well-formed image:
`true` iff every pixel matches the first pixel channel-wise within the
tolerance. -/
theorem solid_characterization (image : Image)
    (h1 : image.has_data = true) (h2 : image.readRaises = false)
    (h3 : 0 < image.width) (h4 : 0 < image.height) (h5 : 0 < image.channels)
    (h6 : image.pixels.length = image.width * image.height * image.channels) :
    (is_image_solid_color image = true ↔
      ∀ i, i < image.width * image.height → ∀ j, j < image.channels →
        |image.pixels.getD j 0 - image.pixels.getD (i * image.channels + j) 0| ≤ tolerance) := by
  have hchne : ¬ image.channels = 0 := Nat.pos_iff_ne_zero.mp h5
  have hwh : 0 < image.width * image.height := Nat.mul_pos h3 h4
  have hlenpos : 0 < image.pixels.length := by
    rw [h6]; exact Nat.mul_pos hwh h5
  have hne : ¬ image.pixels = [] := by
    intro h; rw [h] at hlenpos; simp at hlenpos
  have hchle : image.channels ≤ image.pixels.length := by
    rw [h6]
    calc image.channels = 1 * image.channels := (one_mul _).symm
    _ ≤ image.width * image.height * image.channels :=
        Nat.mul_le_mul_right _ hwh
  have hfirstlen : (image.pixels.take image.channels).length = image.channels := by
    rw [List.length_take]; exact min_eq_left hchle
  unfold is_image_solid_color
  rw [if_neg (by simp [h1, hne, Nat.pos_iff_ne_zero.mp h3, Nat.pos_iff_ne_zero.mp h4]),
    if_neg (by simp [h2]), if_neg (by simp [hne]), if_neg (by simp [hchne])]
  rw [pyChunks_cons hchne hne]
  rw [show ((image.pixels.take image.channels :: pyChunks image.channels
      (image.pixels.drop image.channels)).drop 1) =
      pyChunks image.channels (image.pixels.drop image.channels) from rfl]
  rw [pyChunks_all_iff hchne (image.pixels.drop image.channels).length _ le_rfl]
  constructor
  · intro hall i hi j hj
    match i with
    | 0 =>
      simp only [Nat.zero_mul, Nat.zero_add]
      rw [sub_self, abs_zero]
      norm_num [tolerance]
    | i + 1 =>
      have hi2 : i + 2 ≤ image.width * image.height := hi
      have hmul : (i + 2) * image.channels ≤
          image.width * image.height * image.channels :=
        Nat.mul_le_mul_right _ hi2
      have hexp : (i + 2) * image.channels =
          image.channels * i + 2 * image.channels := by ring
      have hb : image.channels * i < (image.pixels.drop image.channels).length := by
        rw [List.length_drop]; omega
      have h := hall i hb
      rw [List.drop_drop] at h
      have he : image.channels + image.channels * i = (i + 1) * image.channels := by ring
      rw [he] at h
      have hdroplen : ((image.pixels.drop ((i + 1) * image.channels)).length) =
          image.pixels.length - (i + 1) * image.channels := List.length_drop _ _
      have hip1 : (i + 1) * image.channels + image.channels ≤ image.pixels.length := by
        rw [h6]
        have : (i + 1) * image.channels + image.channels = (i + 2) * image.channels := by ring
        omega
      have hlc : ((image.pixels.drop ((i + 1) * image.channels)).take image.channels).length
          = image.channels := by
        rw [List.length_take, List.length_drop]
        exact min_eq_left (by omega)
      simp only [hlc] at h
      rw [if_neg (by simp)] at h
      rw [Bool.not_eq_eq_eq_not, Bool.not_true] at h
      rw [chunkDiffers_eq_false hfirstlen hlc] at h
      have hgoal := h j hj
      rw [getD_take_of_lt hj hchle] at hgoal
      rw [getD_take_of_lt hj (by rw [List.length_drop]; omega)] at hgoal
      rw [getD_drop_of_lt (by omega)] at hgoal
      exact hgoal
  · intro hall i hb
    rw [List.drop_drop]
    have he : image.channels + image.channels * i = (i + 1) * image.channels := by ring
    rw [he]
    have hexp : (i + 1) * image.channels = image.channels * i + image.channels := by ring
    have hiwh : i + 1 < image.width * image.height := by
      have hlt : (i + 1) * image.channels < image.width * image.height * image.channels := by
        rw [List.length_drop] at hb; omega
      exact Nat.lt_of_mul_lt_mul_right hlt
    have hip1 : (i + 1) * image.channels + image.channels ≤ image.pixels.length := by
      have hmul : (i + 2) * image.channels ≤
          image.width * image.height * image.channels :=
        Nat.mul_le_mul_right _ hiwh
      have hexp2 : (i + 2) * image.channels =
          (i + 1) * image.channels + image.channels := by ring
      omega
    have hlc : ((image.pixels.drop ((i + 1) * image.channels)).take image.channels).length
        = image.channels := by
      rw [List.length_take, List.length_drop]
      exact min_eq_left (by omega)
    simp only [hlc]
    rw [if_neg (by simp)]
    rw [Bool.not_eq_eq_eq_not, Bool.not_true]
    rw [chunkDiffers_eq_false hfirstlen hlc]
    intro j hj
    have hgoal := hall (i + 1) hiwh j hj
    rw [getD_take_of_lt hj hchle]
    rw [getD_take_of_lt hj (by rw [List.length_drop]; omega)]
    rw [getD_drop_of_lt (by omega)]
    exact hgoal

/-- Claim C6: create_image returns a size-by-size buffer with alpha whose
fill color, color space and precision follow the map-type table: Diffuse
gets black fill, sRGB, 8-bit; Roughness and AO get mid-gray fill,
Non-Color, 8-bit; Normal gets (0.5,0.5,1,1), Non-Color, 32-bit float. -/
theorem claim_C6 (name : String) (size : Nat) :
    (create_image name size "Diffuse" =
      { name := name, width := size, height := size, alpha := true,
        channels := 4, generated_color := (0, 0, 0, 1), colorspace := "sRGB",
        use_generated_float := false, has_data := true, pixels := [],
        readRaises := false, filepath_raw := "", file_format := "" })
    ∧ (create_image name size "Roughness" =
      { name := name, width := size, height := size, alpha := true,
        channels := 4, generated_color := (1/2, 1/2, 1/2, 1),
        colorspace := "Non-Color", use_generated_float := false,
        has_data := true, pixels := [], readRaises := false,
        filepath_raw := "", file_format := "" })
    ∧ (create_image name size "AO" =
      { name := name, width := size, height := size, alpha := true,
        channels := 4, generated_color := (1/2, 1/2, 1/2, 1),
        colorspace := "Non-Color", use_generated_float := false,
        has_data := true, pixels := [], readRaises := false,
        filepath_raw := "", file_format := "" })
    ∧ (create_image name size "Normal" =
      { name := name, width := size, height := size, alpha := true,
        channels := 4, generated_color := (1/2, 1/2, 1, 1),
        colorspace := "Non-Color", use_generated_float := true,
        has_data := true, pixels := [], readRaises := false,
        filepath_raw := "", file_format := "" }) := by
  refine ⟨?_, ?_, ?_, ?_⟩ <;> simp [create_image]

/-- The node scan keeps the LAST matching node: it equals the last
element of the filtered node list. -/
theorem findPrincipled_eq (nodes : List Node) :
    findPrincipled nodes
      = (nodes.filter (fun n => n.ntype = "BSDF_PRINCIPLED")).getLast? := by
  unfold findPrincipled
  induction nodes using List.reverseRecOn with
  | nil => rfl
  | append_singleton l n ih =>
    rw [List.foldl_append, List.foldl_cons, List.foldl_nil, List.filter_append]
    by_cases hn : n.ntype = "BSDF_PRINCIPLED"
    · simp [hn]
    · simp [hn, ih]

/-! ### Lemmas about the validator -/

@[simp]
theorem ensureActiveUV_fst_active_material (model : Obj) (s : BState) :
    (ensureActiveUV model s).1.active_material = model.active_material := by
  unfold ensureActiveUV
  by_cases h : model.uv_active_index = none
  · rw [if_pos h]
  · rw [if_neg h]

@[simp]
theorem ensureActiveUV_fst_name (model : Obj) (s : BState) :
    (ensureActiveUV model s).1.name = model.name := by
  unfold ensureActiveUV
  by_cases h : model.uv_active_index = none
  · rw [if_pos h]
  · rw [if_neg h]

@[simp]
theorem ensureActiveUV_fst_uv_layers (model : Obj) (s : BState) :
    (ensureActiveUV model s).1.uv_layers = model.uv_layers := by
  unfold ensureActiveUV
  by_cases h : model.uv_active_index = none
  · rw [if_pos h]
  · rw [if_neg h]

@[simp]
theorem ensureActiveUV_snd_reports (model : Obj) (s : BState) :
    (ensureActiveUV model s).2.reports = s.reports := by
  unfold ensureActiveUV
  by_cases h : model.uv_active_index = none
  · rw [if_pos h]; rfl
  · rw [if_neg h]

theorem validateMaterial_fst (model : Obj) (s : BState) :
    (validateMaterial model s).1 =
      (match model.active_material with
      | none => none
      | some material =>
        if material.use_nodes = false then none
        else match findPrincipled material.nodes with
          | none => none
          | some principled => some ⟨model.name, material, principled⟩) := by
  have hma := ensureActiveUV_fst_active_material model s
  have hnm := ensureActiveUV_fst_name model s
  rcases hE : ensureActiveUV model s with ⟨m1, s1⟩
  rw [hE] at hma hnm
  dsimp only at hma hnm
  unfold validateMaterial
  rw [hE]
  simp only [hma, hnm]
  rcases hm : model.active_material with _ | material
  · rfl
  · by_cases hu : material.use_nodes = false
    · simp only [if_pos hu]
    · simp only [if_neg hu]
      rcases hp : findPrincipled material.nodes with _ | pn <;> rfl

theorem validateMaterial_reports (model : Obj) (s : BState) :
    (validateMaterial model s).2.reports =
      (match model.active_material with
      | none => s.reports ++ [.errorNoMaterial model.name]
      | some material =>
        if material.use_nodes = false then s.reports ++ [.errorNodesDisabled material.name]
        else match findPrincipled material.nodes with
          | none => s.reports ++ [.errorNoPrincipled material.name]
          | some _ => s.reports) := by
  have hma := ensureActiveUV_fst_active_material model s
  have hnm := ensureActiveUV_fst_name model s
  have hrp := ensureActiveUV_snd_reports model s
  rcases hE : ensureActiveUV model s with ⟨m1, s1⟩
  rw [hE] at hma hnm hrp
  dsimp only at hma hnm hrp
  unfold validateMaterial
  rw [hE]
  simp only [hma, hnm]
  rcases hm : model.active_material with _ | material
  · simp [addReport, hrp]
  · by_cases hu : material.use_nodes = false
    · simp only [if_pos hu]
      simp [addReport, hrp]
    · simp only [if_neg hu]
      rcases hp : findPrincipled material.nodes with _ | pn <;> simp [addReport, hrp]

theorem getActiveObj_eq_some {s : BState} {model : Obj}
    (h : getActiveObj s = some model) :
    s.active_object = some model.name ∧ lookupObj s model.name = some model := by
  unfold getActiveObj at h
  rcases ha : s.active_object with _ | nm
  · rw [ha] at h; simp at h
  · rw [ha] at h
    simp only [Option.some_bind] at h
    have hname : model.name = nm := by
      have := List.find?_some h
      simpa using this
    subst hname
    exact ⟨rfl, h⟩

theorem find?_upd_list (nm : String) (f : Obj → Obj)
    (hf : ∀ o, (f o).name = o.name) :
    ∀ t : List Obj,
      List.find? (fun o => o.name = nm) (t.map (fun o => if o.name = nm then f o else o))
        = Option.map f (List.find? (fun o => o.name = nm) t) := by
  intro t
  induction t with
  | nil => rfl
  | cons o rest ih =>
    by_cases h : o.name = nm
    · rw [List.map_cons, if_pos h]
      rw [List.find?_cons_of_pos _ (by simp [hf o, h]),
          List.find?_cons_of_pos _ (by simp [h])]
      rfl
    · rw [List.map_cons, if_neg h]
      rw [List.find?_cons_of_neg _ (by simp [h]),
          List.find?_cons_of_neg _ (by simp [h])]
      exact ih

theorem lookupObj_updObj_self (nm : String) (f : Obj → Obj) {s : BState}
    (hf : ∀ o, (f o).name = o.name) :
    lookupObj (updObj nm f s) nm = (lookupObj s nm).map f :=
  find?_upd_list nm f hf s.objs

@[simp]
theorem active_object_updObj (nm : String) (f : Obj → Obj) (s : BState) :
    (updObj nm f s).active_object = s.active_object := rfl

@[simp]
theorem active_object_addReport (r : Report) (s : BState) :
    (addReport r s).active_object = s.active_object := rfl

@[simp]
theorem objs_addReport (r : Report) (s : BState) :
    (addReport r s).objs = s.objs := rfl

theorem lookupObj_addReport (r : Report) (s : BState) (nm : String) :
    lookupObj (addReport r s) nm = lookupObj s nm := rfl

theorem getActiveObj_addReport (r : Report) (s : BState) :
    getActiveObj (addReport r s) = getActiveObj s := rfl

theorem getActiveObj_updObj {s : BState} {model : Obj} {f : Obj → Obj}
    (h : getActiveObj s = some model) (hf : ∀ o, (f o).name = o.name) :
    getActiveObj (updObj model.name f s) = some (f model) := by
  obtain ⟨ha, hl⟩ := getActiveObj_eq_some h
  unfold getActiveObj
  rw [active_object_updObj, ha]
  simp only [Option.some_bind]
  rw [lookupObj_updObj_self _ f hf, hl]
  rfl

theorem validateMaterial_snd_success {model1 : Obj} {s : BState} {mat : Material} {pn : Node}
    (hAM : model1.active_material = some mat) (hUN : ¬ mat.use_nodes = false)
    (hPn : findPrincipled mat.nodes = some pn) :
    (validateMaterial model1 s).2 = (ensureActiveUV model1 s).2 := by
  have hma := ensureActiveUV_fst_active_material model1 s
  rcases hE : ensureActiveUV model1 s with ⟨m1, s1⟩
  rw [hE] at hma
  dsimp only at hma
  unfold validateMaterial
  rw [hE]
  dsimp only
  rw [hma, hAM]
  dsimp only
  rw [if_neg hUN, hPn]

theorem getActiveObj_ensureActiveUV (model1 : Obj) {s : BState} {M : Obj}
    (h : getActiveObj s = some M) (hnm : model1.name = M.name) :
    ∃ o, getActiveObj (ensureActiveUV model1 s).2 = some o ∧
      o.uv_layers = M.uv_layers := by
  unfold ensureActiveUV
  by_cases hI : model1.uv_active_index = none
  · rw [if_pos hI]
    dsimp only
    rw [hnm]
    exact ⟨_, getActiveObj_updObj h (fun o => rfl), rfl⟩
  · rw [if_neg hI]
    exact ⟨M, h, rfl⟩

/-- Claim C8: validateRequirements performs the spec's checks in order and
short-circuits with a cancelled result on the first failing check (the
reported error is the one matching the spec classifier's first failure);
when several Principled BSDF nodes exist, the last one encountered in the
node list is returned and this is not an error. -/
theorem claim_C8 (s : BState) :
    ((validateRequirements s).1.isSome ↔ specError s = none)
    ∧ (∀ e, specError s = some e →
        (validateRequirements s).1 = none ∧
        ∃ r, ((validateRequirements s).2.reports).getLast? = some r ∧
          reportMatches e r = true)
    ∧ (∀ v, (validateRequirements s).1 = some v →
        ∃ model material, getActiveObj s = some model ∧
          model.active_material = some material ∧ v.material = material ∧
          (material.nodes.filter (fun n => n.ntype = "BSDF_PRINCIPLED")).getLast?
            = some v.principled) := by
  rcases hA : getActiveObj s with _ | model
  · have h1 : validateRequirements s = (none, addReport .errorNoActiveObject s) := by
      unfold validateRequirements
      rw [hA]
    have h2 : specError s = some .NoActiveMesh := by
      unfold specError
      rw [hA]
    rw [h1, h2]
    refine ⟨by simp, ?_, by simp⟩
    rintro e he
    injection he with he
    subst he
    exact ⟨rfl, .errorNoActiveObject, by simp [addReport, List.getLast?_concat], rfl⟩
  · by_cases hM : model.otype = "MESH"
    · by_cases hUV : model.uv_layers = []
      · have h1 : validateRequirements s =
            (none, addReport (.errorNoUV model.name)
              (if s.selected.length > 1 then addReport .warnMultiSelect s else s)) := by
          unfold validateRequirements
          rw [hA]
          dsimp only
          rw [if_neg (by simp [hM]), if_pos hUV]
        have h2 : specError s = some .NoUVMap := by
          unfold specError
          rw [hA]
          dsimp only
          rw [if_neg (by simp [hM]), if_pos hUV]
        rw [h1, h2]
        refine ⟨by simp, ?_, by simp⟩
        rintro e he
        injection he with he
        subst he
        exact ⟨rfl, .errorNoUV model.name, by simp [addReport, List.getLast?_concat], rfl⟩
      · -- the UV-layer checks pass; both find? branches end in validateMaterial
        have hVM : ∃ M S, validateRequirements s = validateMaterial M S ∧
            M.active_material = model.active_material ∧ M.name = model.name ∧
            getActiveObj s = some model := by
          unfold validateRequirements
          rw [hA]
          dsimp only
          rw [if_neg (by simp [hM]), if_neg hUV]
          rcases hF : model.uv_layers.find? (fun l => l.active_render) with _ | lay
          · obtain ⟨first, rest, huvl⟩ : ∃ a t, model.uv_layers = a :: t := by
              cases h : model.uv_layers with
              | nil => exact absurd h hUV
              | cons a t => exact ⟨a, t, rfl⟩
            rw [hF]
            dsimp only
            rw [huvl]
            exact ⟨_, _, rfl, rfl, rfl, rfl⟩
          · rw [hF]
            exact ⟨model, _, rfl, rfl, rfl, rfl⟩
        obtain ⟨M, S, hVR, hMam, hMnm, _⟩ := hVM
        have h2 : specError s =
            (match model.active_material with
            | none => some VErr.NoMaterial
            | some material =>
              if material.use_nodes = false then some VErr.NodesDisabled
              else if material.nodes.filter (fun n => n.ntype = "BSDF_PRINCIPLED") = [] then
                some VErr.NoPrincipledNode
              else none) := by
          unfold specError
          rw [hA]
          dsimp only
          rw [if_neg (by simp [hM]), if_neg hUV]
        rw [hVR, h2, validateMaterial_fst]
        rw [hMam, hMnm]
        have hrep := validateMaterial_reports M S
        rw [hMam, hMnm] at hrep
        rcases hAM : model.active_material with _ | material
        · rw [hAM] at hrep
          dsimp only at hrep ⊢
          refine ⟨by simp, ?_, by simp⟩
          rintro e he
          injection he with he
          subst he
          exact ⟨rfl, .errorNoMaterial model.name,
            by rw [hrep]; simp [List.getLast?_concat], rfl⟩
        · rw [hAM] at hrep
          dsimp only at hrep ⊢
          by_cases hUN : material.use_nodes = false
          · rw [if_pos hUN] at hrep
            rw [if_pos hUN, if_pos hUN]
            refine ⟨by simp, ?_, by simp⟩
            rintro e he
            injection he with he
            subst he
            exact ⟨rfl, .errorNodesDisabled material.name,
              by rw [hrep]; simp [List.getLast?_concat], rfl⟩
          · rw [if_neg hUN] at hrep
            rw [if_neg hUN, if_neg hUN]
            rcases hP : findPrincipled material.nodes with _ | pn
            · have hfil : material.nodes.filter (fun n => n.ntype = "BSDF_PRINCIPLED") = [] := by
                rw [findPrincipled_eq] at hP
                exact List.getLast?_eq_none.mp hP
              rw [hP] at hrep
              dsimp only at hrep ⊢
              rw [if_pos hfil]
              refine ⟨by simp, ?_, by simp⟩
              rintro e he
              injection he with he
              subst he
              exact ⟨rfl, .errorNoPrincipled material.name,
                by rw [hrep]; simp [List.getLast?_concat], rfl⟩
            · have hfil : ¬ material.nodes.filter (fun n => n.ntype = "BSDF_PRINCIPLED") = [] := by
                intro hc
                rw [findPrincipled_eq, hc] at hP
                simp at hP
              dsimp only
              rw [if_neg hfil]
              refine ⟨by simp, by simp, ?_⟩
              rintro v hv
              injection hv with hv
              subst hv
              refine ⟨model, material, rfl, hAM, rfl, ?_⟩
              rw [← findPrincipled_eq]
              exact hP
    · have h1 : validateRequirements s = (none, addReport (.errorNotMesh model.name) s) := by
        unfold validateRequirements
        rw [hA]
        dsimp only
        rw [if_pos (by simp [hM])]
      have h2 : specError s = some .NotAMesh := by
        unfold specError
        rw [hA]
        dsimp only
        rw [if_pos (by simp [hM])]
      rw [h1, h2]
      refine ⟨by simp, ?_, by simp⟩
      rintro e he
      injection he with he
      subst he
      exact ⟨rfl, .errorNotMesh model.name, by simp [addReport, List.getLast?_concat], rfl⟩

/-- Claim C8 witness: on a concrete scene whose material holds two
Principled BSDF nodes, validation succeeds and returns the last one. -/
theorem claim_C8_witness :
    ∃ model material, getActiveObj c8state = some model ∧
      model.active_material = some material ∧
      (VCtx.mk "Cube" c8mat c8nodeB).material = material ∧
      (material.nodes.filter (fun n => n.ntype = "BSDF_PRINCIPLED")).getLast?
        = some (VCtx.mk "Cube" c8mat c8nodeB).principled :=
  (claim_C8 c8state).2.2 (VCtx.mk "Cube" c8mat c8nodeB) (by decide)

/-- Claim C9: on a mesh with at least one UV layer none of which is
active-for-render, validation promotes the first layer to
active-for-render, surfaces a warning (not an error: validation still
succeeds when the material checks pass), and afterwards exactly one UV
layer is marked active-for-render. -/
theorem claim_C9 (s : BState) (model : Obj) (first : UVLayer) (rest : List UVLayer)
    (mat : Material) (pn : Node)
    (hA : getActiveObj s = some model)
    (hM : model.otype = "MESH")
    (hUV : model.uv_layers = first :: rest)
    (hNone : ∀ l ∈ model.uv_layers, l.active_render = false)
    (hMat : model.active_material = some mat)
    (hUN : mat.use_nodes = true)
    (hPn : findPrincipled mat.nodes = some pn) :
    ((validateRequirements s).1.isSome = true)
    ∧ Report.warnAutoRenderUV model.name first.name ∈ (validateRequirements s).2.reports
    ∧ ∃ o, getActiveObj (validateRequirements s).2 = some o ∧
        o.uv_layers.countP (fun l => l.active_render) = 1 ∧
        o.uv_layers.head?.map (fun l => l.active_render) = some true := by
  have hF : model.uv_layers.find? (fun l => l.active_render) = none :=
    List.find?_eq_none.mpr (fun x hx => by rw [hNone x hx]; simp)
  have hUVne : ¬ model.uv_layers = [] := by rw [hUV]; simp
  have heq : validateRequirements s =
      validateMaterial
        { model with uv_layers := { first with active_render := true } :: rest }
        (addReport (.warnAutoRenderUV model.name first.name)
          (updObj model.name (fun o => { o with uv_layers := promoteFirstUV o.uv_layers })
            (if s.selected.length > 1 then addReport .warnMultiSelect s else s))) := by
    unfold validateRequirements
    rw [hA]
    dsimp only
    rw [if_neg (by simp [hM]), if_neg hUVne, hF]
    dsimp only
    rw [hUV]
  have hAM1 : ({ model with
      uv_layers := { first with active_render := true } :: rest } : Obj).active_material
      = some mat := hMat
  have hUN1 : ¬ mat.use_nodes = false := by simp [hUN]
  refine ⟨?_, ?_, ?_⟩
  · rw [heq, validateMaterial_fst]
    dsimp only
    rw [hMat]
    dsimp only
    rw [if_neg hUN1, hPn]
    rfl
  · rw [heq, validateMaterial_reports]
    dsimp only
    rw [hMat]
    dsimp only
    rw [if_neg hUN1, hPn]
    simp [addReport, updObj]
  · rw [heq, validateMaterial_snd_success hAM1 hUN1 hPn]
    have hA1 : getActiveObj
        (if s.selected.length > 1 then addReport .warnMultiSelect s else s) = some model := by
      by_cases hsel : s.selected.length > 1
      · rw [if_pos hsel, getActiveObj_addReport]; exact hA
      · rw [if_neg hsel]; exact hA
    have hA2 : getActiveObj
        (addReport (.warnAutoRenderUV model.name first.name)
          (updObj model.name (fun o => { o with uv_layers := promoteFirstUV o.uv_layers })
            (if s.selected.length > 1 then addReport .warnMultiSelect s else s)))
        = some { model with uv_layers := promoteFirstUV model.uv_layers } := by
      rw [getActiveObj_addReport]
      exact getActiveObj_updObj hA1 (fun o => rfl)
    obtain ⟨o, ho, houv⟩ := getActiveObj_ensureActiveUV
      { model with uv_layers := { first with active_render := true } :: rest }
      hA2 rfl
    refine ⟨o, ho, ?_, ?_⟩
    · rw [houv]
      dsimp only
      rw [hUV]
      unfold promoteFirstUV
      rw [List.countP_cons]
      have hz : rest.countP (fun l => l.active_render) = 0 :=
        List.countP_eq_zero.mpr (fun l hl => by
          rw [hNone l (by rw [hUV]; exact List.mem_cons_of_mem _ hl)]; simp)
      simp [hz]
    · rw [houv]
      dsimp only
      rw [hUV]
      unfold promoteFirstUV
      simp

/-- Claim C9 witness: the theorem applied to a concrete mesh whose only
UV layer is not marked active-for-render. -/
theorem claim_C9_witness :
    ((validateRequirements c9state).1.isSome = true)
    ∧ Report.warnAutoRenderUV c9cube.name "UVMap" ∈ (validateRequirements c9state).2.reports
    ∧ ∃ o, getActiveObj (validateRequirements c9state).2 = some o ∧
        o.uv_layers.countP (fun l => l.active_render) = 1 ∧
        o.uv_layers.head?.map (fun l => l.active_render) = some true :=
  claim_C9 c9state c9cube { name := "UVMap", active_render := false } [] c8mat c8nodeB
    (by decide) (by decide) (by decide) (by decide) (by decide) (by decide) (by decide)

/-- Claim C10 counterexample: an image whose pixel list is empty (with
pixel data flagged present and nonzero dimensions) makes
is_image_solid_color return false, not true as claimed: the guard
`not image.pixels` catches the empty list before the
`if not pixels: return True` branch can run. -/
theorem claim_C10_counterexample :
    is_image_solid_color
      { name := "Cube_Normal", width := 4, height := 4, alpha := true,
        channels := 4, generated_color := (0, 0, 0, 1),
        colorspace := "Non-Color", use_generated_float := true,
        has_data := true, pixels := [], readRaises := false,
        filepath_raw := "", file_format := "" } = false := by
  rfl

/-- Claim C10 (amended): is_image_solid_color returns false whenever the
image has no pixel data, an empty pixel list, zero width or height, or
reading its pixels raises; it returns true when the channel count is 0
and the guard passes (the claimed empty-copied-list-returns-true branch
is unreachable, because the guard already returns false on an empty
pixel list). -/
theorem claim_C10 :
    (∀ image : Image,
      (image.has_data = false ∨ image.pixels = [] ∨ image.width = 0 ∨ image.height = 0) →
      is_image_solid_color image = false)
    ∧ (∀ image : Image,
      image.has_data = true → ¬ image.pixels = [] →
      ¬ image.width = 0 → ¬ image.height = 0 →
      image.readRaises = true →
      is_image_solid_color image = false)
    ∧ (∀ image : Image,
      image.has_data = true → ¬ image.pixels = [] →
      ¬ image.width = 0 → ¬ image.height = 0 →
      image.readRaises = false → image.channels = 0 →
      is_image_solid_color image = true) := by
  refine ⟨?_, ?_, ?_⟩
  · intro image h
    unfold is_image_solid_color
    rw [if_pos h]
  · intro image h1 h2 h3 h4 h5
    unfold is_image_solid_color
    rw [if_neg (by simp [h1, h2, h3, h4]), if_pos h5]
  · intro image h1 h2 h3 h4 h5 h6
    unfold is_image_solid_color
    rw [if_neg (by simp [h1, h2, h3, h4]), if_neg (by simp [h5]),
      if_neg (by simp [h2]), if_pos h6]

/-- Claim C10 witness: the amended theorem applied at concrete images. -/
theorem claim_C10_witness :
    (is_image_solid_color
      { name := "A", width := 0, height := 4, alpha := true, channels := 4,
        generated_color := (0, 0, 0, 1), colorspace := "sRGB",
        use_generated_float := false, has_data := true, pixels := [1, 2, 3, 4],
        readRaises := false, filepath_raw := "", file_format := "" } = false)
    ∧ (is_image_solid_color
      { name := "B", width := 1, height := 1, alpha := true, channels := 4,
        generated_color := (0, 0, 0, 1), colorspace := "sRGB",
        use_generated_float := false, has_data := true, pixels := [1, 2, 3, 4],
        readRaises := true, filepath_raw := "", file_format := "" } = false)
    ∧ (is_image_solid_color
      { name := "C", width := 1, height := 1, alpha := true, channels := 0,
        generated_color := (0, 0, 0, 1), colorspace := "sRGB",
        use_generated_float := false, has_data := true, pixels := [1, 2, 3, 4],
        readRaises := false, filepath_raw := "", file_format := "" } = true) :=
  ⟨claim_C10.1 _ (Or.inr (Or.inr (Or.inl rfl))),
   claim_C10.2.1 _ rfl (by simp) (by simp) (by simp) rfl,
   claim_C10.2.2 _ rfl (by simp) (by simp) (by simp) rfl rfl⟩

/-! ### Field-preservation lemmas for the state helpers -/

@[simp] theorem addReport_scene (r : Report) (s : BState) : (addReport r s).scene = s.scene := rfl

@[simp] theorem addReport_view_layer (r : Report) (s : BState) : (addReport r s).view_layer = s.view_layer := rfl

@[simp] theorem addReport_selected (r : Report) (s : BState) : (addReport r s).selected = s.selected := rfl

@[simp] theorem addReport_images (r : Report) (s : BState) : (addReport r s).images = s.images := rfl

@[simp] theorem addReport_dirs (r : Report) (s : BState) : (addReport r s).dirs = s.dirs := rfl

@[simp] theorem addReport_files (r : Report) (s : BState) : (addReport r s).files = s.files := rfl

@[simp] theorem addReport_bake_calls (r : Report) (s : BState) : (addReport r s).bake_calls = s.bake_calls := rfl

@[simp] theorem updObj_scene (nm : String) (f : Obj → Obj) (s : BState) : (updObj nm f s).scene = s.scene := rfl

@[simp] theorem updObj_view_layer (nm : String) (f : Obj → Obj) (s : BState) : (updObj nm f s).view_layer = s.view_layer := rfl

@[simp] theorem updObj_selected (nm : String) (f : Obj → Obj) (s : BState) : (updObj nm f s).selected = s.selected := rfl

@[simp] theorem updObj_images (nm : String) (f : Obj → Obj) (s : BState) : (updObj nm f s).images = s.images := rfl

@[simp] theorem updObj_dirs (nm : String) (f : Obj → Obj) (s : BState) : (updObj nm f s).dirs = s.dirs := rfl

@[simp] theorem updObj_files (nm : String) (f : Obj → Obj) (s : BState) : (updObj nm f s).files = s.files := rfl

@[simp] theorem updObj_reports (nm : String) (f : Obj → Obj) (s : BState) : (updObj nm f s).reports = s.reports := rfl

@[simp] theorem updObj_bake_calls (nm : String) (f : Obj → Obj) (s : BState) : (updObj nm f s).bake_calls = s.bake_calls := rfl

@[simp] theorem updImage_scene (nm : String) (f : Image → Image) (s : BState) : (updImage nm f s).scene = s.scene := rfl

@[simp] theorem updImage_view_layer (nm : String) (f : Image → Image) (s : BState) : (updImage nm f s).view_layer = s.view_layer := rfl

@[simp] theorem updImage_selected (nm : String) (f : Image → Image) (s : BState) : (updImage nm f s).selected = s.selected := rfl

@[simp] theorem updImage_active_object (nm : String) (f : Image → Image) (s : BState) : (updImage nm f s).active_object = s.active_object := rfl

@[simp] theorem updImage_objs (nm : String) (f : Image → Image) (s : BState) : (updImage nm f s).objs = s.objs := rfl

@[simp] theorem updImage_dirs (nm : String) (f : Image → Image) (s : BState) : (updImage nm f s).dirs = s.dirs := rfl

@[simp] theorem updImage_files (nm : String) (f : Image → Image) (s : BState) : (updImage nm f s).files = s.files := rfl

@[simp] theorem updImage_reports (nm : String) (f : Image → Image) (s : BState) : (updImage nm f s).reports = s.reports := rfl

@[simp] theorem updImage_bake_calls (nm : String) (f : Image → Image) (s : BState) : (updImage nm f s).bake_calls = s.bake_calls := rfl

@[simp] theorem addImage_scene (i : Image) (s : BState) : (addImage i s).scene = s.scene := rfl

@[simp] theorem addImage_view_layer (i : Image) (s : BState) : (addImage i s).view_layer = s.view_layer := rfl

@[simp] theorem addImage_selected (i : Image) (s : BState) : (addImage i s).selected = s.selected := rfl

@[simp] theorem addImage_active_object (i : Image) (s : BState) : (addImage i s).active_object = s.active_object := rfl

@[simp] theorem addImage_objs (i : Image) (s : BState) : (addImage i s).objs = s.objs := rfl

@[simp] theorem addImage_dirs (i : Image) (s : BState) : (addImage i s).dirs = s.dirs := rfl

@[simp] theorem addImage_files (i : Image) (s : BState) : (addImage i s).files = s.files := rfl

@[simp] theorem addImage_reports (i : Image) (s : BState) : (addImage i s).reports = s.reports := rfl

@[simp] theorem addImage_bake_calls (i : Image) (s : BState) : (addImage i s).bake_calls = s.bake_calls := rfl

@[simp] theorem removeImage_scene (nm : String) (s : BState) : (removeImage nm s).scene = s.scene := rfl

@[simp] theorem removeImage_view_layer (nm : String) (s : BState) : (removeImage nm s).view_layer = s.view_layer := rfl

@[simp] theorem removeImage_selected (nm : String) (s : BState) : (removeImage nm s).selected = s.selected := rfl

@[simp] theorem removeImage_active_object (nm : String) (s : BState) : (removeImage nm s).active_object = s.active_object := rfl

@[simp] theorem removeImage_objs (nm : String) (s : BState) : (removeImage nm s).objs = s.objs := rfl

@[simp] theorem removeImage_dirs (nm : String) (s : BState) : (removeImage nm s).dirs = s.dirs := rfl

@[simp] theorem removeImage_files (nm : String) (s : BState) : (removeImage nm s).files = s.files := rfl

@[simp] theorem removeImage_reports (nm : String) (s : BState) : (removeImage nm s).reports = s.reports := rfl

@[simp] theorem removeImage_bake_calls (nm : String) (s : BState) : (removeImage nm s).bake_calls = s.bake_calls := rfl

@[simp] theorem recordBakeCall_scene (t : String) (s : BState) : (recordBakeCall t s).scene = s.scene := rfl

@[simp] theorem recordBakeCall_view_layer (t : String) (s : BState) : (recordBakeCall t s).view_layer = s.view_layer := rfl

@[simp] theorem recordBakeCall_selected (t : String) (s : BState) : (recordBakeCall t s).selected = s.selected := rfl

@[simp] theorem recordBakeCall_active_object (t : String) (s : BState) : (recordBakeCall t s).active_object = s.active_object := rfl

@[simp] theorem recordBakeCall_objs (t : String) (s : BState) : (recordBakeCall t s).objs = s.objs := rfl

@[simp] theorem recordBakeCall_dirs (t : String) (s : BState) : (recordBakeCall t s).dirs = s.dirs := rfl

@[simp] theorem recordBakeCall_files (t : String) (s : BState) : (recordBakeCall t s).files = s.files := rfl

@[simp] theorem recordBakeCall_images (t : String) (s : BState) : (recordBakeCall t s).images = s.images := rfl

@[simp] theorem recordBakeCall_reports (t : String) (s : BState) : (recordBakeCall t s).reports = s.reports := rfl

@[simp] theorem recordBakeCall_bake_calls (t : String) (s : BState) : (recordBakeCall t s).bake_calls = s.bake_calls ++ [t] := rfl

@[simp] theorem addReport_reports_eq (r : Report) (s : BState) : (addReport r s).reports = s.reports ++ [r] := rfl

theorem filter_no_bake_target {ns : List Node}
    (H : ∀ n ∈ ns, n.name = "BakeTargetNode" → n.ntype = "TEX_IMAGE") :
    ∀ n ∈ ns.filter (fun n => ¬ (n.ntype = "TEX_IMAGE" ∧ n.name = "BakeTargetNode")),
      ¬ n.name = "BakeTargetNode" := by
  intro n hn
  rcases List.mem_filter.mp hn with ⟨hmem, hpred⟩
  rw [decide_eq_true_eq] at hpred
  intro hname
  exact hpred ⟨H n hmem hname, hname⟩

theorem countBakeTarget_add {ns : List Node} (imageName : String)
    (H : ∀ n ∈ ns, n.name = "BakeTargetNode" → n.ntype = "TEX_IMAGE") :
    countBakeTarget (add_bake_image_node ns imageName) = 1 := by
  unfold countBakeTarget add_bake_image_node
  rw [List.countP_append]
  have h0 : (ns.filter
      (fun n => ¬ (n.ntype = "TEX_IMAGE" ∧ n.name = "BakeTargetNode"))).countP
      (fun n => n.name = "BakeTargetNode") = 0 := by
    rw [List.countP_eq_zero]
    intro n hn
    rw [Bool.not_eq_true, decide_eq_false_iff_not]
    exact filter_no_bake_target H n hn
  rw [h0]
  rfl

theorem remove_add_bake {ns : List Node} (imageName : String)
    (H : ∀ n ∈ ns, n.name = "BakeTargetNode" → n.ntype = "TEX_IMAGE") :
    remove_bake_image_node (add_bake_image_node ns imageName)
      = ns.filter (fun n => ¬ (n.ntype = "TEX_IMAGE" ∧ n.name = "BakeTargetNode")) := by
  unfold remove_bake_image_node add_bake_image_node
  rw [List.eraseP_append_right]
  · rw [List.eraseP_cons_of_pos (by simp)]
    rw [List.append_nil]
  · intro n hn
    rw [Bool.not_eq_true, decide_eq_false_iff_not]
    exact filter_no_bake_target H n hn

theorem countBakeTarget_remove_add {ns : List Node} (imageName : String)
    (H : ∀ n ∈ ns, n.name = "BakeTargetNode" → n.ntype = "TEX_IMAGE") :
    countBakeTarget (remove_bake_image_node (add_bake_image_node ns imageName)) = 0 := by
  rw [remove_add_bake imageName H]
  unfold countBakeTarget
  rw [List.countP_eq_zero]
  intro n hn
  rw [Bool.not_eq_true, decide_eq_false_iff_not]
  exact filter_no_bake_target H n hn

theorem nodesOf_eq_of_objs {s t : BState} (nm : String) (h : t.objs = s.objs) :
    nodesOf t nm = nodesOf s nm := by
  unfold nodesOf lookupObj
  rw [h]

theorem nodesOf_updObj_mat {s : BState} {modelName : String} {ns : List Node}
    (h : nodesOf s modelName = some ns)
    (f : Material → Material) (G : List Node → List Node)
    (hfG : ∀ m, (f m).nodes = G m.nodes) :
    nodesOf (updObj modelName
      (fun o => { o with active_material := o.active_material.map f }) s) modelName
      = some (G ns) := by
  unfold nodesOf at h ⊢
  rcases hL : lookupObj s modelName with _ | o
  · rw [hL] at h; simp at h
  · rw [hL] at h
    simp only [Option.some_bind] at h
    rcases hm : o.active_material with _ | m
    · rw [hm] at h; simp at h
    · rw [hm] at h
      simp only [Option.map_some'] at h
      injection h with h
      rw [lookupObj_updObj_self modelName
        (fun o => { o with active_material := o.active_material.map f }) (fun o2 => rfl), hL]
      simp only [Option.map_some', Option.some_bind]
      rw [hm]
      simp only [Option.map_some']
      rw [hfG m, h]

theorem nodesOf_add_bake_node_state {s : BState} {modelName : String} {ns : List Node}
    (imageName : String) (h : nodesOf s modelName = some ns) :
    nodesOf (add_bake_node_state modelName imageName s) modelName
      = some (add_bake_image_node ns imageName) := by
  unfold add_bake_node_state
  exact nodesOf_updObj_mat h _ (fun nodes => add_bake_image_node nodes imageName)
    (fun m => rfl)

theorem nodesOf_removeBakeNodeState {s : BState} {modelName : String} {ns : List Node}
    (h : nodesOf s modelName = some ns) :
    nodesOf (removeBakeNodeState modelName s) modelName
      = some (remove_bake_image_node ns) := by
  unfold removeBakeNodeState updNodes
  exact nodesOf_updObj_mat h _ remove_bake_image_node (fun m => rfl)

@[simp] theorem nodesOf_recordBakeCall (t : String) (s : BState) (nm : String) :
    nodesOf (recordBakeCall t s) nm = nodesOf s nm := rfl

@[simp] theorem nodesOf_updImage (inm : String) (f : Image → Image) (s : BState) (nm : String) :
    nodesOf (updImage inm f s) nm = nodesOf s nm := rfl

@[simp] theorem nodesOf_addImage (i : Image) (s : BState) (nm : String) :
    nodesOf (addImage i s) nm = nodesOf s nm := rfl

@[simp] theorem nodesOf_removeImage (inm : String) (s : BState) (nm : String) :
    nodesOf (removeImage inm s) nm = nodesOf s nm := rfl

@[simp] theorem nodesOf_addReport (r : Report) (s : BState) (nm : String) :
    nodesOf (addReport r s) nm = nodesOf s nm := rfl

@[simp] theorem nodesOf_setScene (sc : Scene) (s : BState) (nm : String) :
    nodesOf { s with scene := sc } nm = nodesOf s nm := rfl

theorem bake_diffuse_nodes {s : BState} {modelName : String} {ns : List Node}
    (orc : Orc) (imageName : String) (h : nodesOf s modelName = some ns) :
    nodesOf (bake_diffuse orc modelName imageName s).2 modelName
      = some (remove_bake_image_node (add_bake_image_node ns imageName)) := by
  unfold bake_diffuse
  have h1 := nodesOf_add_bake_node_state imageName h
  rcases hbake : orc.bake "DIFFUSE" with _ | px
  · dsimp only
    exact nodesOf_removeBakeNodeState h1
  · dsimp only
    exact nodesOf_removeBakeNodeState h1

theorem bake_normal_nodes {s : BState} {modelName : String} {ns : List Node}
    (orc : Orc) (imageName : String) (h : nodesOf s modelName = some ns) :
    nodesOf (bake_normal orc modelName imageName s).2 modelName
      = some (remove_bake_image_node (add_bake_image_node ns imageName)) := by
  unfold bake_normal
  have h0 : nodesOf
      (updImage imageName forceFloat (updImage imageName forceNonColor s)) modelName
      = some ns := h
  have h1 := nodesOf_add_bake_node_state imageName h0
  rcases hbake : orc.bake "NORMAL" with _ | px
  · dsimp only
    exact nodesOf_removeBakeNodeState h1
  · dsimp only
    exact nodesOf_removeBakeNodeState h1

theorem bake_roughness_nodes {s : BState} {modelName : String} {ns : List Node}
    (orc : Orc) (imageName : String) (h : nodesOf s modelName = some ns) :
    nodesOf (bake_roughness orc modelName imageName s).2 modelName
      = some (remove_bake_image_node (add_bake_image_node ns imageName)) := by
  unfold bake_roughness
  have h0 : nodesOf (updImage imageName forceNonColor s) modelName = some ns := h
  have h1 := nodesOf_add_bake_node_state imageName h0
  rcases hbake : orc.bake "ROUGHNESS" with _ | px
  · dsimp only
    exact nodesOf_removeBakeNodeState h1
  · dsimp only
    exact nodesOf_removeBakeNodeState h1

theorem bake_ao_nodes {s : BState} {modelName : String} {ns : List Node}
    (orc : Orc) (imageName : String) (h : nodesOf s modelName = some ns) :
    nodesOf (bake_ao orc modelName imageName s).2 modelName
      = some (remove_bake_image_node (add_bake_image_node ns imageName)) := by
  unfold bake_ao
  have h0 : nodesOf (updImage imageName forceNonColor s) modelName = some ns := h
  have h1 := nodesOf_add_bake_node_state imageName h0
  rcases hbake : orc.bake "AO" with _ | px
  · dsimp only
    exact nodesOf_removeBakeNodeState h1
  · dsimp only
    exact nodesOf_removeBakeNodeState h1

theorem bake_method_nodes {s : BState} {modelName : String} {ns : List Node}
    (orc : Orc) (imageName map_type : String)
    (h : nodesOf s modelName = some ns) :
    nodesOf (bake_method orc modelName imageName map_type s).2 modelName
      = some (remove_bake_image_node (add_bake_image_node ns imageName)) := by
  unfold bake_method
  by_cases h1 : map_type = "Diffuse"
  · rw [if_pos h1]; exact bake_diffuse_nodes orc imageName h
  · rw [if_neg h1]
    by_cases h2 : map_type = "Roughness"
    · rw [if_pos h2]; exact bake_roughness_nodes orc imageName h
    · rw [if_neg h2]
      by_cases h3 : map_type = "Normal"
      · rw [if_pos h3]; exact bake_normal_nodes orc imageName h
      · rw [if_neg h3]; exact bake_ao_nodes orc imageName h

/-- Claim C4: at most one node named "BakeTargetNode" exists in the graph
at any time (add first sweeps stale ones, then inserts exactly one;
after removal none remain), and for every bake method invocation —
success or bake-service exception — the inserted node is removed before
the method returns: the final graph is the original one with bake-target
nodes swept, which contains no node named "BakeTargetNode". -/
theorem claim_C4 :
    (∀ (nodes : List Node) (imageName : String),
      (∀ n ∈ nodes, n.name = "BakeTargetNode" → n.ntype = "TEX_IMAGE") →
      countBakeTarget (add_bake_image_node nodes imageName) = 1
      ∧ remove_bake_image_node (add_bake_image_node nodes imageName)
          = nodes.filter (fun n => ¬ (n.ntype = "TEX_IMAGE" ∧ n.name = "BakeTargetNode"))
      ∧ countBakeTarget (remove_bake_image_node (add_bake_image_node nodes imageName)) = 0)
    ∧ (∀ (orc : Orc) (modelName imageName map_type : String) (s : BState) (ns : List Node),
      nodesOf s modelName = some ns →
      (∀ n ∈ ns, n.name = "BakeTargetNode" → n.ntype = "TEX_IMAGE") →
      ∃ ns2, nodesOf (bake_method orc modelName imageName map_type s).2 modelName = some ns2
        ∧ countBakeTarget ns2 = 0) := by
  constructor
  · intro nodes imageName H
    exact ⟨countBakeTarget_add imageName H, remove_add_bake imageName H,
      countBakeTarget_remove_add imageName H⟩
  · intro orc modelName imageName map_type s ns h H
    exact ⟨_, bake_method_nodes orc imageName map_type h,
      countBakeTarget_remove_add imageName H⟩

/-- Claim C4 witness: the theorem applied at a concrete node list (one
stale TEX_IMAGE bake-target node present) and a concrete bake-method
invocation on the C8 scene. -/
theorem claim_C4_witness :
    (countBakeTarget (add_bake_image_node
        [{ ntype := "TEX_IMAGE", name := "BakeTargetNode", label := "",
           image := none, node_selected := false }, c8nodeA] "Cube_Normal") = 1
      ∧ remove_bake_image_node (add_bake_image_node
          [{ ntype := "TEX_IMAGE", name := "BakeTargetNode", label := "",
             image := none, node_selected := false }, c8nodeA] "Cube_Normal")
          = [{ ntype := "TEX_IMAGE", name := "BakeTargetNode", label := "",
               image := none, node_selected := false }, c8nodeA].filter
              (fun n => ¬ (n.ntype = "TEX_IMAGE" ∧ n.name = "BakeTargetNode"))
      ∧ countBakeTarget (remove_bake_image_node (add_bake_image_node
          [{ ntype := "TEX_IMAGE", name := "BakeTargetNode", label := "",
             image := none, node_selected := false }, c8nodeA] "Cube_Normal")) = 0)
    ∧ ∃ ns2, nodesOf (bake_method failOrc "Cube" "Cube_Normal" "Normal" c8state).2 "Cube"
        = some ns2 ∧ countBakeTarget ns2 = 0 :=
  ⟨claim_C4.1 _ "Cube_Normal" (by decide),
   claim_C4.2 failOrc "Cube" "Cube_Normal" "Normal" c8state c8mat.nodes (by decide) (by decide)⟩

/-! ### Claim C5: Normal-map color space and precision at save time -/

theorem find?_updImage_list (nm : String) (f : Image → Image)
    (hf : ∀ i, (f i).name = i.name) :
    ∀ t : List Image,
      List.find? (fun i => i.name = nm) (t.map (fun i => if i.name = nm then f i else i))
        = Option.map f (List.find? (fun i => i.name = nm) t) := by
  intro t
  induction t with
  | nil => rfl
  | cons i rest ih =>
    by_cases h : i.name = nm
    · rw [List.map_cons, if_pos h]
      rw [List.find?_cons_of_pos _ (by simp [hf i, h]),
          List.find?_cons_of_pos _ (by simp [h])]
      rfl
    · rw [List.map_cons, if_neg h]
      rw [List.find?_cons_of_neg _ (by simp [h]),
          List.find?_cons_of_neg _ (by simp [h])]
      exact ih

theorem getImage_updImage (nm : String) (f : Image → Image) {s : BState}
    (hf : ∀ i, (f i).name = i.name) :
    getImage (updImage nm f s) nm = (getImage s nm).map f :=
  find?_updImage_list nm f hf s.images

@[simp] theorem forceNonColor_colorspace (i : Image) :
    (forceNonColor i).colorspace = "Non-Color" := by
  unfold forceNonColor
  by_cases h : i.colorspace = "Non-Color"
  · rw [if_neg (by simp [h])]; exact h
  · rw [if_pos (by simp [h])]

@[simp] theorem forceNonColor_float (i : Image) :
    (forceNonColor i).use_generated_float = i.use_generated_float := by
  unfold forceNonColor
  by_cases h : i.colorspace = "Non-Color"
  · rw [if_neg (by simp [h])]
  · rw [if_pos (by simp [h])]

@[simp] theorem forceNonColor_name (i : Image) :
    (forceNonColor i).name = i.name := by
  unfold forceNonColor
  by_cases h : i.colorspace = "Non-Color"
  · rw [if_neg (by simp [h])]
  · rw [if_pos (by simp [h])]

@[simp] theorem forceFloat_float (i : Image) :
    (forceFloat i).use_generated_float = true := by
  unfold forceFloat
  by_cases h : i.use_generated_float
  · rw [if_neg (by simp [h])]; exact h
  · rw [if_pos (by simp [h])]

@[simp] theorem forceFloat_colorspace (i : Image) :
    (forceFloat i).colorspace = i.colorspace := by
  unfold forceFloat
  by_cases h : i.use_generated_float
  · rw [if_neg (by simp [h])]
  · rw [if_pos (by simp [h])]

@[simp] theorem forceFloat_name (i : Image) :
    (forceFloat i).name = i.name := by
  unfold forceFloat
  by_cases h : i.use_generated_float
  · rw [if_neg (by simp [h])]
  · rw [if_pos (by simp [h])]

/-- After bake_normal, the target image (if present) has Non-Color color
space and 32-bit float enabled, whatever it had before. -/
theorem bake_normal_image {orc : Orc} {modelName imageName : String} {s : BState}
    {img : Image}
    (h : getImage (bake_normal orc modelName imageName s).2 imageName = some img) :
    img.use_generated_float = true ∧ img.colorspace = "Non-Color" := by
  unfold bake_normal at h
  rcases hbake : orc.bake "NORMAL" with _ | px <;> rw [hbake] at h <;> dsimp only at h
  · have h2 : getImage
        (updImage imageName forceFloat (updImage imageName forceNonColor s))
        imageName = some img := h
    rw [getImage_updImage imageName forceFloat (fun i => forceFloat_name i),
      getImage_updImage imageName forceNonColor (fun i => forceNonColor_name i)] at h2
    rcases hg : getImage s imageName with _ | i0
    · rw [hg] at h2; simp at h2
    · rw [hg] at h2
      simp only [Option.map_some'] at h2
      injection h2 with h2
      rw [← h2]
      simp
  · have h2 : getImage
        (updImage imageName (fun i => { i with pixels := px, has_data := true })
          (updImage imageName forceFloat (updImage imageName forceNonColor s)))
        imageName = some img := h
    rw [getImage_updImage imageName (fun i => { i with pixels := px, has_data := true })
        (fun i => rfl),
      getImage_updImage imageName forceFloat (fun i => forceFloat_name i),
      getImage_updImage imageName forceNonColor (fun i => forceNonColor_name i)] at h2
    rcases hg : getImage s imageName with _ | i0
    · rw [hg] at h2; simp at h2
    · rw [hg] at h2
      simp only [Option.map_some'] at h2
      injection h2 with h2
      rw [← h2]
      simp

/-- Claim C5 counterexample: if an intermediate step between buffer
creation and saving clears use_generated_float, the save phase writes
the Normal file WITHOUT 32-bit float precision — only the color space is
re-verified before saving (source lines 152-155), not the float flag.
The written file here has Non-Color color space but
use_generated_float = false, refuting the claim as stated. -/
theorem claim_C5_counterexample :
    strEndsWith c5img.name "_Normal" = true
    ∧ ((saveOne true "textures" c5img).2.map
        (fun f => f.use_generated_float)) = some false
    ∧ ((saveOne true "textures" c5img).2.map
        (fun f => f.colorspace)) = some "Non-Color" := by
  refine ⟨by decide, by decide, by decide⟩

/-- Claim C5 (amended): every Normal-map buffer written to disk is
written with Non-Color color space even if an intermediate step changed
it (the save phase re-forces it); its precision is 32-bit float exactly
when use_generated_float is still set at save time — create_image sets
the flag and bake_normal re-forces it before baking, but the save phase
does not re-check it, so only a change made after the per-map bake can
reach the file. -/
theorem claim_C5 :
    (∀ (ok : Bool) (output_path : String) (image : Image) (f : SavedFile),
      strEndsWith image.name "_Normal" = true →
      (saveOne ok output_path image).2 = some f →
      f.colorspace = "Non-Color" ∧ f.use_generated_float = image.use_generated_float)
    ∧ (∀ (name : String) (size : Nat),
      (create_image name size "Normal").use_generated_float = true
      ∧ (create_image name size "Normal").colorspace = "Non-Color")
    ∧ (∀ (orc : Orc) (modelName imageName : String) (s : BState) (img : Image),
      getImage (bake_normal orc modelName imageName s).2 imageName = some img →
      img.use_generated_float = true ∧ img.colorspace = "Non-Color") := by
  refine ⟨?_, ?_, ?_⟩
  · intro ok output_path image f hend hsave
    unfold saveOne at hsave
    by_cases hok : ok = true
    · rw [hok, if_pos rfl] at hsave
      injection hsave with hsave
      subst hsave
      dsimp only
      by_cases hcs : image.colorspace = "Non-Color"
      · rw [if_neg (by simp [hcs])]
        exact ⟨hcs, rfl⟩
      · rw [if_pos (by simp [hend, hcs])]
        exact ⟨rfl, rfl⟩
    · rw [if_neg hok] at hsave
      simp at hsave
  · intro name size
    refine ⟨?_, ?_⟩ <;> simp [create_image]
  · intro orc modelName imageName s img h
    exact bake_normal_image h

/-- Claim C5 witness: the amended theorem applied at a concrete save of
an intact Normal buffer and a concrete bake_normal run. -/
theorem claim_C5_witness :
    (strEndsWith (create_image "Cube_Normal" 4 "Normal").name "_Normal" = true
      ∧ (saveOne true "textures" (create_image "Cube_Normal" 4 "Normal")).2
          = some { path := "textures/Cube_Normal.png", file_format := "PNG",
                   colorspace := "Non-Color", use_generated_float := true, pixels := [] }
      ∧ ({ path := "textures/Cube_Normal.png", file_format := "PNG",
           colorspace := "Non-Color", use_generated_float := true,
           pixels := ([] : List ℚ) } : SavedFile).colorspace = "Non-Color"
      ∧ ({ path := "textures/Cube_Normal.png", file_format := "PNG",
           colorspace := "Non-Color", use_generated_float := true,
           pixels := ([] : List ℚ) } : SavedFile).use_generated_float
          = (create_image "Cube_Normal" 4 "Normal").use_generated_float)
    ∧ ((create_image "N" 2 "Normal").use_generated_float = true
      ∧ (create_image "N" 2 "Normal").colorspace = "Non-Color") := by
  refine ⟨⟨by decide, by decide, ?hc⟩, claim_C5.2.1 "N" 2⟩
  exact claim_C5.1 true "textures" (create_image "Cube_Normal" 4 "Normal")
    { path := "textures/Cube_Normal.png", file_format := "PNG",
      colorspace := "Non-Color", use_generated_float := true, pixels := [] }
    (by decide) (by decide)

/-! ### Claim C7: solid-color detection and the Normal warning -/

@[simp] theorem getImage_addReport (r : Report) (s : BState) (nm : String) :
    getImage (addReport r s) nm = getImage s nm := rfl

/-- Claim C7: on an image with pixel data, is_image_solid_color is true
exactly when every pixel's every channel matches the first pixel within
the 0.01 tolerance (so it is false exactly when some pixel differs by
more than 0.01 in some channel); and in the per-map loop, a true result
after a successful Normal bake surfaces the non-fatal solid-color
warning. -/
theorem claim_C7 :
    (∀ image : Image,
      image.has_data = true → image.readRaises = false →
      0 < image.width → 0 < image.height → 0 < image.channels →
      image.pixels.length = image.width * image.height * image.channels →
      (is_image_solid_color image = true ↔
        ∀ i, i < image.width * image.height → ∀ j, j < image.channels →
          |image.pixels.getD j 0 - image.pixels.getD (i * image.channels + j) 0|
            ≤ tolerance))
    ∧ (∀ (props : Props) (orc : Orc) (modelName : String) (ls : LoopSt) (img : Image),
      (processOne props orc modelName "Normal" ls).bake_successful = true →
      getImage (processOne props orc modelName "Normal" ls).s
        (modelName ++ "_" ++ "Normal") = some img →
      is_image_solid_color img = true →
      Report.warnSolidNormal (modelName ++ "_" ++ "Normal")
        ∈ (processOne props orc modelName "Normal" ls).s.reports) := by
  constructor
  · exact solid_characterization
  · intro props orc modelName ls img hok himg hsolid
    unfold processOne at hok himg ⊢
    dsimp only at hok himg ⊢
    rcases hbm : bake_method orc modelName (modelName ++ "_" ++ "Normal") "Normal"
        (addImage (create_image (modelName ++ "_" ++ "Normal") props.texture_size "Normal")
          (if imageExists ls.s (modelName ++ "_" ++ "Normal")
           then removeImage (modelName ++ "_" ++ "Normal") ls.s else ls.s)) with ⟨ok, s2⟩
    rw [hbm] at hok himg
    cases ok
    · dsimp only at hok
      exact absurd hok (by simp)
    · dsimp only at himg ⊢
      rw [if_pos rfl] at himg ⊢
      rcases hgi : getImage s2 (modelName ++ "_" ++ "Normal") with _ | imgX
      · try rw [hgi] at himg
        try dsimp only at himg
        try dsimp only
        exact absurd (hgi.symm.trans himg) (by simp)
      · try rw [hgi] at himg
        try dsimp only at himg
        try dsimp only
        by_cases hs : is_image_solid_color imgX = true
        · rw [if_pos hs]
          simp
        · rw [if_neg hs] at himg ⊢
          rw [hgi] at himg
          injection himg with himg
          subst himg
          exact absurd hsolid hs

/-- Claim C7 witness: the characterization applied to a concrete 2-pixel
image, and the warning surfaced by a concrete solid Normal bake. -/
theorem claim_C7_witness :
    (is_image_solid_color c7flat = true ↔
      ∀ i, i < c7flat.width * c7flat.height → ∀ j, j < c7flat.channels →
        |c7flat.pixels.getD j 0 - c7flat.pixels.getD (i * c7flat.channels + j) 0|
          ≤ tolerance)
    ∧ Report.warnSolidNormal ("Cube" ++ "_" ++ "Normal")
        ∈ (processOne c7props c7orc "Cube" "Normal" ⟨c8state, true, []⟩).s.reports :=
  ⟨claim_C7.1 c7flat rfl rfl (by decide) (by decide) (by decide) (by decide),
   claim_C7.2 c7props c7orc "Cube" ⟨c8state, true, []⟩ c7img (by rfl) (by rfl)
     (by rfl)⟩

/-! ### Validator state preservation and success context -/

/-- ensureActiveUV only touches `objs` (uv_active_index) of the state. -/
theorem ensureActiveUV_snd_preserves (model : Obj) (s : BState) :
    (ensureActiveUV model s).2.scene = s.scene
    ∧ (ensureActiveUV model s).2.view_layer = s.view_layer
    ∧ (ensureActiveUV model s).2.selected = s.selected
    ∧ (ensureActiveUV model s).2.active_object = s.active_object
    ∧ (ensureActiveUV model s).2.images = s.images
    ∧ (ensureActiveUV model s).2.dirs = s.dirs
    ∧ (ensureActiveUV model s).2.files = s.files
    ∧ (ensureActiveUV model s).2.bake_calls = s.bake_calls := by
  unfold ensureActiveUV
  by_cases h : model.uv_active_index = none
  · rw [if_pos h]
    exact ⟨rfl, rfl, rfl, rfl, rfl, rfl, rfl, rfl⟩
  · rw [if_neg h]
    exact ⟨rfl, rfl, rfl, rfl, rfl, rfl, rfl, rfl⟩

/-- validateMaterial only adds reports and touches `objs`. -/
theorem validateMaterial_snd_preserves (M : Obj) (S : BState) :
    (validateMaterial M S).2.scene = S.scene
    ∧ (validateMaterial M S).2.view_layer = S.view_layer
    ∧ (validateMaterial M S).2.selected = S.selected
    ∧ (validateMaterial M S).2.active_object = S.active_object
    ∧ (validateMaterial M S).2.images = S.images
    ∧ (validateMaterial M S).2.dirs = S.dirs
    ∧ (validateMaterial M S).2.files = S.files
    ∧ (validateMaterial M S).2.bake_calls = S.bake_calls := by
  have he := ensureActiveUV_snd_preserves M S
  have hma := ensureActiveUV_fst_active_material M S
  rcases hE : ensureActiveUV M S with ⟨m1, s1⟩
  rw [hE] at he hma
  dsimp only at he hma
  unfold validateMaterial
  rw [hE]
  dsimp only
  rcases hm : m1.active_material with _ | material
  · simpa using he
  · by_cases hu : material.use_nodes = false
    · simpa [hu] using he
    · rcases hp : findPrincipled material.nodes with _ | pn
      · simpa [hu, hp] using he
      · simpa [hu, hp] using he

/-- validateRequirements only adds reports and touches `objs`. -/
theorem validateRequirements_preserves (s : BState) :
    (validateRequirements s).2.scene = s.scene
    ∧ (validateRequirements s).2.view_layer = s.view_layer
    ∧ (validateRequirements s).2.selected = s.selected
    ∧ (validateRequirements s).2.active_object = s.active_object
    ∧ (validateRequirements s).2.images = s.images
    ∧ (validateRequirements s).2.dirs = s.dirs
    ∧ (validateRequirements s).2.files = s.files
    ∧ (validateRequirements s).2.bake_calls = s.bake_calls := by
  unfold validateRequirements
  rcases hA : getActiveObj s with _ | model
  · exact ⟨rfl, rfl, rfl, rfl, rfl, rfl, rfl, rfl⟩
  · dsimp only
    by_cases hM : model.otype = "MESH"
    · rw [if_neg (by simp [hM])]
      by_cases hUV : model.uv_layers = []
      · rw [if_pos hUV]
        by_cases hsel : s.selected.length > 1 <;> simp [hsel]
      · rw [if_neg hUV]
        rcases hF : model.uv_layers.find? (fun l => l.active_render) with _ | lay
        · rcases huvl : model.uv_layers with _ | ⟨first, rest⟩
          · exact absurd huvl hUV
          · rw [huvl] at hF
            dsimp only
            have h1 := validateMaterial_snd_preserves
              { model with uv_layers := { first with active_render := true } :: rest }
              (addReport (.warnAutoRenderUV model.name first.name)
                (updObj model.name
                  (fun o => { o with uv_layers := promoteFirstUV o.uv_layers })
                  (if s.selected.length > 1 then addReport .warnMultiSelect s else s)))
            by_cases hsel : s.selected.length > 1 <;>
              simp only [hsel, if_true, if_false, ite_true, ite_false] at h1 ⊢ <;>
              rw [hF] <;> simpa using h1
        · have h1 := validateMaterial_snd_preserves model
            (if s.selected.length > 1 then addReport .warnMultiSelect s else s)
          by_cases hsel : s.selected.length > 1 <;>
            simp only [hsel, if_true, if_false, ite_true, ite_false] at h1 ⊢ <;>
            rw [hF] <;> simpa using h1
    · rw [if_pos (by simp [hM])]
      exact ⟨rfl, rfl, rfl, rfl, rfl, rfl, rfl, rfl⟩

theorem validateMaterial_success_ctx {M : Obj} {S : BState} {v : VCtx} {s1 : BState}
    (h : validateMaterial M S = (some v, s1)) :
    M.active_material = some v.material ∧ v.modelName = M.name
    ∧ s1 = (ensureActiveUV M S).2 := by
  have hf := validateMaterial_fst M S
  rw [h] at hf
  dsimp only at hf
  rcases hAM : M.active_material with _ | mat
  · rw [hAM] at hf; simp at hf
  · rw [hAM] at hf
    dsimp only at hf
    by_cases hUN : mat.use_nodes = false
    · rw [if_pos hUN] at hf; simp at hf
    · rw [if_neg hUN] at hf
      rcases hP : findPrincipled mat.nodes with _ | pn
      · rw [hP] at hf; simp at hf
      · rw [hP] at hf
        dsimp only at hf
        injection hf with hf
        have hsnd := @validateMaterial_snd_success M S mat pn hAM hUN hP
        rw [h] at hsnd
        dsimp only at hsnd
        refine ⟨?_, ?_, hsnd⟩
        · rw [hf]
        · rw [hf]

theorem lookup_ensureActiveUV (M : Obj) (S : BState) {X : Obj} {A : Option Material}
    (hl : lookupObj S M.name = some X) (hA : X.active_material = A) :
    ∃ Y, lookupObj (ensureActiveUV M S).2 M.name = some Y
      ∧ Y.active_material = A := by
  unfold ensureActiveUV
  by_cases hI : M.uv_active_index = none
  · rw [if_pos hI]
    dsimp only
    rw [lookupObj_updObj_self M.name
      (fun o =>
        { o with
          uv_active_index := some (M.uv_layers.findIdx (fun l => l.active_render)) })
      (fun o => rfl), hl]
    exact ⟨_, rfl, hA⟩
  · rw [if_neg hI]
    exact ⟨X, hl, hA⟩

/-- On validation success: the pre-state has an active object; the
returned context names it; and in the post-state the looked-up object
still carries the validated material as its active material. -/
theorem validateRequirements_success_ctx {s : BState} {v : VCtx} {s1 : BState}
    (h : validateRequirements s = (some v, s1)) :
    ∃ model, getActiveObj s = some model ∧ v.modelName = model.name
    ∧ ∃ model1, lookupObj s1 v.modelName = some model1
        ∧ model1.active_material = some v.material := by
  unfold validateRequirements at h
  rcases hA : getActiveObj s with _ | model
  · rw [hA] at h; simp at h
  · rw [hA] at h
    dsimp only at h
    obtain ⟨hact, hline⟩ := getActiveObj_eq_some hA
    by_cases hM : model.otype = "MESH"
    · rw [if_neg (by simp [hM])] at h
      by_cases hUV : model.uv_layers = []
      · rw [if_pos hUV] at h; simp at h
      · rw [if_neg hUV] at h
        rcases hF : model.uv_layers.find? (fun l => l.active_render) with _ | lay
        · rw [hF] at h
          dsimp only at h
          rcases huvl : model.uv_layers with _ | ⟨first, rest⟩
          · exact absurd huvl hUV
          · rw [huvl] at h
            dsimp only at h
            obtain ⟨hAM, hnm, hs1⟩ := validateMaterial_success_ctx h
            refine ⟨model, rfl, by rw [hnm], ?_⟩
            have hlS : lookupObj
                (addReport (.warnAutoRenderUV model.name first.name)
                  (updObj model.name
                    (fun o => { o with uv_layers := promoteFirstUV o.uv_layers })
                    (if s.selected.length > 1 then addReport .warnMultiSelect s else s)))
                model.name
                = some { model with uv_layers := promoteFirstUV model.uv_layers } := by
              rw [lookupObj_addReport]
              rw [lookupObj_updObj_self model.name
                (fun o => { o with uv_layers := promoteFirstUV o.uv_layers }) (fun o => rfl)]
              have : lookupObj
                  (if s.selected.length > 1 then addReport .warnMultiSelect s else s)
                  model.name = some model := by
                by_cases hsel : s.selected.length > 1
                · rw [if_pos hsel, lookupObj_addReport]; exact hline
                · rw [if_neg hsel]; exact hline
              rw [this]
              rfl
            have hname1 : ({ model with
                uv_layers := { first with active_render := true } :: rest } : Obj).name
                = model.name := rfl
            obtain ⟨Y, hY, hYA⟩ := lookup_ensureActiveUV
              { model with uv_layers := { first with active_render := true } :: rest } _
              (by rw [hname1]; exact hlS) (rfl)
            rw [hs1, hnm, hname1]
            refine ⟨Y, hY, ?_⟩
            rw [hYA]
            exact hAM
        · rw [hF] at h
          dsimp only at h
          obtain ⟨hAM, hnm, hs1⟩ := validateMaterial_success_ctx h
          refine ⟨model, rfl, by rw [hnm], ?_⟩
          have hlS : lookupObj
              (if s.selected.length > 1 then addReport .warnMultiSelect s else s)
              model.name = some model := by
            by_cases hsel : s.selected.length > 1
            · rw [if_pos hsel, lookupObj_addReport]; exact hline
            · rw [if_neg hsel]; exact hline
          obtain ⟨Y, hY, hYA⟩ := lookup_ensureActiveUV model _ hlS rfl
          rw [hs1, hnm]
          refine ⟨Y, hY, ?_⟩
          rw [hYA]
          exact hAM
    · rw [if_pos (by simp [hM])] at h
      simp at h

/-! ### Frame and effect lemmas for the bake pipeline -/

theorem imageExists_removeImage (nm : String) (s : BState) :
    imageExists (removeImage nm s) nm = false := by
  unfold imageExists removeImage
  dsimp only
  rw [List.any_eq_false]
  intro i hi
  rcases List.mem_filter.mp hi with ⟨_, hpred⟩
  simp at hpred ⊢
  exact hpred

theorem imageExists_removeImage_of_false {a nm : String} {s : BState}
    (h : imageExists s nm = false) :
    imageExists (removeImage a s) nm = false := by
  unfold imageExists at h ⊢
  unfold removeImage
  dsimp only
  rw [List.any_eq_false] at h ⊢
  intro i hi
  exact h i (List.mem_filter.mp hi).1

@[simp]
theorem imageExists_addReport (r : Report) (s : BState) (nm : String) :
    imageExists (addReport r s) nm = imageExists s nm := rfl

theorem imageExists_eq_names (s : BState) (nm : String) :
    imageExists s nm = (s.images.map Image.name).any (fun x => x = nm) := by
  unfold imageExists
  suffices h : ∀ l : List Image,
      (l.any fun i => i.name = nm) = ((l.map Image.name).any fun x => x = nm) from
    h s.images
  intro l
  induction l with
  | nil => rfl
  | cons i t ih => simp only [List.any_cons, List.map_cons, ih]

/-- Fields of the conditional session-image removal (the
`if image_name in bpy.data.images: remove` pattern). -/
theorem condRemove_frame (nm : String) (s : BState) :
    (if imageExists s nm then removeImage nm s else s).files = s.files
    ∧ (if imageExists s nm then removeImage nm s else s).bake_calls = s.bake_calls
    ∧ (if imageExists s nm then removeImage nm s else s).view_layer = s.view_layer
    ∧ (if imageExists s nm then removeImage nm s else s).selected = s.selected
    ∧ (if imageExists s nm then removeImage nm s else s).active_object = s.active_object
    ∧ (if imageExists s nm then removeImage nm s else s).dirs = s.dirs := by
  by_cases h : imageExists s nm
  · rw [if_pos h]
    exact ⟨rfl, rfl, rfl, rfl, rfl, rfl⟩
  · rw [if_neg h]
    exact ⟨rfl, rfl, rfl, rfl, rfl, rfl⟩

theorem condRemove_not_exists (nm : String) (s : BState) :
    imageExists (if imageExists s nm then removeImage nm s else s) nm = false := by
  by_cases h : imageExists s nm
  · rw [if_pos h]
    exact imageExists_removeImage nm s
  · rw [if_neg h]
    simpa using h

theorem updImage_images_names (nm : String) (f : Image → Image)
    (hf : ∀ i, (f i).name = i.name) (s : BState) :
    (updImage nm f s).images.map Image.name = s.images.map Image.name := by
  unfold updImage
  dsimp only
  rw [List.map_map]
  apply List.map_congr_left
  intro i _
  dsimp only [Function.comp]
  by_cases h : i.name = nm
  · rw [if_pos h, hf]
  · rw [if_neg h]

@[simp]
theorem imagesNames_forceNonColor (nm : String) (s : BState) :
    (updImage nm forceNonColor s).images.map Image.name = s.images.map Image.name :=
  updImage_images_names nm forceNonColor
    (fun i => by
      unfold forceNonColor
      by_cases h : ¬ i.colorspace = "Non-Color" <;> simp [h]) s

@[simp]
theorem imagesNames_forceFloat (nm : String) (s : BState) :
    (updImage nm forceFloat s).images.map Image.name = s.images.map Image.name :=
  updImage_images_names nm forceFloat
    (fun i => by
      unfold forceFloat
      by_cases h : ¬ i.use_generated_float <;> simp [h]) s

@[simp]
theorem imagesNames_writeBake (nm : String) (px : List ℚ) (s : BState) :
    (writeBake nm px s).images.map Image.name = s.images.map Image.name := by
  unfold writeBake
  exact updImage_images_names nm
    (fun i => { i with pixels := px, has_data := true }) (fun i => rfl) s

@[simp] theorem writeBake_files (nm : String) (px : List ℚ) (s : BState) : (writeBake nm px s).files = s.files := rfl

@[simp] theorem writeBake_bake_calls (nm : String) (px : List ℚ) (s : BState) : (writeBake nm px s).bake_calls = s.bake_calls := rfl

@[simp] theorem writeBake_view_layer (nm : String) (px : List ℚ) (s : BState) : (writeBake nm px s).view_layer = s.view_layer := rfl

@[simp] theorem writeBake_selected (nm : String) (px : List ℚ) (s : BState) : (writeBake nm px s).selected = s.selected := rfl

@[simp] theorem writeBake_active_object (nm : String) (px : List ℚ) (s : BState) : (writeBake nm px s).active_object = s.active_object := rfl

@[simp] theorem writeBake_dirs (nm : String) (px : List ℚ) (s : BState) : (writeBake nm px s).dirs = s.dirs := rfl

@[simp]
theorem imagesNames_addBakeNode (modelName imageName : String) (s : BState) :
    (add_bake_node_state modelName imageName s).images.map Image.name
      = s.images.map Image.name := rfl

@[simp]
theorem imagesNames_removeBakeNode (modelName : String) (s : BState) :
    (removeBakeNodeState modelName s).images.map Image.name
      = s.images.map Image.name := rfl

@[simp]
theorem imagesNames_recordBakeCall (t : String) (s : BState) :
    (recordBakeCall t s).images.map Image.name = s.images.map Image.name := rfl

@[simp]
theorem create_image_name (name : String) (size : Nat) (mt : String) :
    (create_image name size mt).name = name := by
  unfold create_image
  by_cases h1 : mt = "Normal"
  · rw [if_pos h1]
  · rw [if_neg h1]
    by_cases h2 : mt = "Roughness" ∨ mt = "Metallic" ∨ mt = "AO"
    · rw [if_pos h2]
    · rw [if_neg h2]

theorem bake_diffuse_effects (orc : Orc) (modelName imageName : String) (s : BState) :
    (bake_diffuse orc modelName imageName s).1 = (orc.bake "DIFFUSE").isSome
    ∧ (bake_diffuse orc modelName imageName s).2.files = s.files
    ∧ (bake_diffuse orc modelName imageName s).2.bake_calls = s.bake_calls ++ ["DIFFUSE"]
    ∧ (bake_diffuse orc modelName imageName s).2.view_layer = s.view_layer
    ∧ (bake_diffuse orc modelName imageName s).2.selected = s.selected
    ∧ (bake_diffuse orc modelName imageName s).2.active_object = s.active_object
    ∧ (bake_diffuse orc modelName imageName s).2.dirs = s.dirs
    ∧ (bake_diffuse orc modelName imageName s).2.images.map Image.name
        = s.images.map Image.name := by
  unfold bake_diffuse
  rcases hbake : orc.bake "DIFFUSE" with _ | px <;>
    dsimp only <;>
    refine ⟨by simp, ?_, ?_, ?_, ?_, ?_, ?_, ?_⟩ <;>
    simp [removeBakeNodeState, updNodes, add_bake_node_state]

theorem bake_normal_effects (orc : Orc) (modelName imageName : String) (s : BState) :
    (bake_normal orc modelName imageName s).1 = (orc.bake "NORMAL").isSome
    ∧ (bake_normal orc modelName imageName s).2.files = s.files
    ∧ (bake_normal orc modelName imageName s).2.bake_calls = s.bake_calls ++ ["NORMAL"]
    ∧ (bake_normal orc modelName imageName s).2.view_layer = s.view_layer
    ∧ (bake_normal orc modelName imageName s).2.selected = s.selected
    ∧ (bake_normal orc modelName imageName s).2.active_object = s.active_object
    ∧ (bake_normal orc modelName imageName s).2.dirs = s.dirs
    ∧ (bake_normal orc modelName imageName s).2.images.map Image.name
        = s.images.map Image.name := by
  unfold bake_normal
  rcases hbake : orc.bake "NORMAL" with _ | px <;>
    dsimp only <;>
    refine ⟨by simp, ?_, ?_, ?_, ?_, ?_, ?_, ?_⟩ <;>
    simp [removeBakeNodeState, updNodes, add_bake_node_state]

theorem bake_roughness_effects (orc : Orc) (modelName imageName : String) (s : BState) :
    (bake_roughness orc modelName imageName s).1 = (orc.bake "ROUGHNESS").isSome
    ∧ (bake_roughness orc modelName imageName s).2.files = s.files
    ∧ (bake_roughness orc modelName imageName s).2.bake_calls = s.bake_calls ++ ["ROUGHNESS"]
    ∧ (bake_roughness orc modelName imageName s).2.view_layer = s.view_layer
    ∧ (bake_roughness orc modelName imageName s).2.selected = s.selected
    ∧ (bake_roughness orc modelName imageName s).2.active_object = s.active_object
    ∧ (bake_roughness orc modelName imageName s).2.dirs = s.dirs
    ∧ (bake_roughness orc modelName imageName s).2.images.map Image.name
        = s.images.map Image.name := by
  unfold bake_roughness
  rcases hbake : orc.bake "ROUGHNESS" with _ | px <;>
    dsimp only <;>
    refine ⟨by simp, ?_, ?_, ?_, ?_, ?_, ?_, ?_⟩ <;>
    simp [removeBakeNodeState, updNodes, add_bake_node_state]

theorem bake_ao_effects (orc : Orc) (modelName imageName : String) (s : BState) :
    (bake_ao orc modelName imageName s).1 = (orc.bake "AO").isSome
    ∧ (bake_ao orc modelName imageName s).2.files = s.files
    ∧ (bake_ao orc modelName imageName s).2.bake_calls = s.bake_calls ++ ["AO"]
    ∧ (bake_ao orc modelName imageName s).2.view_layer = s.view_layer
    ∧ (bake_ao orc modelName imageName s).2.selected = s.selected
    ∧ (bake_ao orc modelName imageName s).2.active_object = s.active_object
    ∧ (bake_ao orc modelName imageName s).2.dirs = s.dirs
    ∧ (bake_ao orc modelName imageName s).2.images.map Image.name
        = s.images.map Image.name := by
  unfold bake_ao
  rcases hbake : orc.bake "AO" with _ | px <;>
    dsimp only <;>
    refine ⟨by simp, ?_, ?_, ?_, ?_, ?_, ?_, ?_⟩ <;>
    simp [removeBakeNodeState, updNodes, add_bake_node_state]

/-- Every bake method: success iff the bake service returned pixels, one
bake call recorded, files / selection frame / image names preserved. -/
theorem bake_method_effects (orc : Orc) (modelName imageName map_type : String) (s : BState) :
    (bake_method orc modelName imageName map_type s).1
        = (orc.bake (bakeTypeOf map_type)).isSome
    ∧ (bake_method orc modelName imageName map_type s).2.files = s.files
    ∧ (bake_method orc modelName imageName map_type s).2.bake_calls
        = s.bake_calls ++ [bakeTypeOf map_type]
    ∧ (bake_method orc modelName imageName map_type s).2.view_layer = s.view_layer
    ∧ (bake_method orc modelName imageName map_type s).2.selected = s.selected
    ∧ (bake_method orc modelName imageName map_type s).2.active_object = s.active_object
    ∧ (bake_method orc modelName imageName map_type s).2.dirs = s.dirs
    ∧ (bake_method orc modelName imageName map_type s).2.images.map Image.name
        = s.images.map Image.name := by
  unfold bake_method
  by_cases h1 : map_type = "Diffuse"
  · have hbt : bakeTypeOf map_type = "DIFFUSE" := by
      unfold bakeTypeOf; rw [if_pos h1]
    rw [if_pos h1, hbt]
    exact bake_diffuse_effects orc modelName imageName s
  · by_cases h2 : map_type = "Roughness"
    · have hbt : bakeTypeOf map_type = "ROUGHNESS" := by
        unfold bakeTypeOf; rw [if_neg h1, if_pos h2]
      rw [if_neg h1, if_pos h2, hbt]
      exact bake_roughness_effects orc modelName imageName s
    · by_cases h3 : map_type = "Normal"
      · have hbt : bakeTypeOf map_type = "NORMAL" := by
          unfold bakeTypeOf; rw [if_neg h1, if_neg h2, if_pos h3]
        rw [if_neg h1, if_neg h2, if_pos h3, hbt]
        exact bake_normal_effects orc modelName imageName s
      · have hbt : bakeTypeOf map_type = "AO" := by
          unfold bakeTypeOf; rw [if_neg h1, if_neg h2, if_neg h3]
        rw [if_neg h1, if_neg h2, if_neg h3, hbt]
        exact bake_ao_effects orc modelName imageName s

/-- A failed bake inside the loop: the success flag drops, the exception
is reported, the created buffer is removed from session and pending list,
exactly one bake call was issued; files and the selection frame are
untouched. -/
theorem processOne_fail (props : Props) (orc : Orc) (modelName map_type : String)
    (ls : LoopSt) (hfail : orc.bake (bakeTypeOf map_type) = none) :
    (processOne props orc modelName map_type ls).bake_successful = false
    ∧ (processOne props orc modelName map_type ls).s.files = ls.s.files
    ∧ (processOne props orc modelName map_type ls).s.bake_calls
        = ls.s.bake_calls ++ [bakeTypeOf map_type]
    ∧ imageExists (processOne props orc modelName map_type ls).s
        (modelName ++ "_" ++ map_type) = false
    ∧ (processOne props orc modelName map_type ls).baked_images
        = (ls.baked_images ++ [modelName ++ "_" ++ map_type]).erase
            (modelName ++ "_" ++ map_type)
    ∧ (processOne props orc modelName map_type ls).s.view_layer = ls.s.view_layer
    ∧ (processOne props orc modelName map_type ls).s.selected = ls.s.selected
    ∧ (processOne props orc modelName map_type ls).s.active_object = ls.s.active_object
    ∧ (processOne props orc modelName map_type ls).s.dirs = ls.s.dirs := by
  unfold processOne
  dsimp only
  have h0 := condRemove_frame (modelName ++ "_" ++ map_type) ls.s
  obtain ⟨h0f, h0c, h0v, h0s, h0a, h0d⟩ := h0
  have heff := bake_method_effects orc modelName (modelName ++ "_" ++ map_type) map_type
    (addImage (create_image (modelName ++ "_" ++ map_type) props.texture_size map_type)
      (if imageExists ls.s (modelName ++ "_" ++ map_type)
       then removeImage (modelName ++ "_" ++ map_type) ls.s else ls.s))
  rcases hbm : bake_method orc modelName (modelName ++ "_" ++ map_type) map_type
    (addImage (create_image (modelName ++ "_" ++ map_type) props.texture_size map_type)
      (if imageExists ls.s (modelName ++ "_" ++ map_type)
       then removeImage (modelName ++ "_" ++ map_type) ls.s else ls.s)) with ⟨ok, s2⟩
  rw [hbm] at heff
  dsimp only at heff
  obtain ⟨hok, hfiles, hcalls, hvl, hsel, hao, hdirs, hnames⟩ := heff
  rw [hfail] at hok
  simp only [Option.isSome_none] at hok
  subst hok
  dsimp only
  have Hf : s2.files = ls.s.files := by
    rw [hfiles, addImage_files]; exact h0f
  have Hc : s2.bake_calls = ls.s.bake_calls ++ [bakeTypeOf map_type] := by
    rw [hcalls, addImage_bake_calls, h0c]
  have Hv : s2.view_layer = ls.s.view_layer := by
    rw [hvl, addImage_view_layer]; exact h0v
  have Hs : s2.selected = ls.s.selected := by
    rw [hsel, addImage_selected]; exact h0s
  have Ha : s2.active_object = ls.s.active_object := by
    rw [hao, addImage_active_object]; exact h0a
  have Hd : s2.dirs = ls.s.dirs := by
    rw [hdirs, addImage_dirs]; exact h0d
  have hex : imageExists (addReport (.errorBakeFailed map_type) s2)
      (modelName ++ "_" ++ map_type) = true := by
    rw [imageExists_addReport, imageExists_eq_names, hnames, ← imageExists_eq_names]
    unfold imageExists addImage
    dsimp only
    rw [List.any_append]
    simp
  rw [if_pos hex, if_pos hex]
  refine ⟨rfl, ?_, ?_, ?_, rfl, ?_, ?_, ?_, ?_⟩
  · simp [Hf]
  · simp [Hc]
  · exact imageExists_removeImage _ _
  · simp [Hv]
  · simp [Hs]
  · simp [Ha]
  · simp [Hd]

/-- A successful bake inside the loop: the success flag stays true, the
buffer is appended to the pending-save list, exactly one bake call was
issued; files and the selection frame are untouched. -/
theorem processOne_ok (props : Props) (orc : Orc) (modelName map_type : String)
    (ls : LoopSt) {px : List ℚ} (hpx : orc.bake (bakeTypeOf map_type) = some px) :
    (processOne props orc modelName map_type ls).bake_successful = true
    ∧ (processOne props orc modelName map_type ls).s.files = ls.s.files
    ∧ (processOne props orc modelName map_type ls).s.bake_calls
        = ls.s.bake_calls ++ [bakeTypeOf map_type]
    ∧ (processOne props orc modelName map_type ls).baked_images
        = ls.baked_images ++ [modelName ++ "_" ++ map_type]
    ∧ (processOne props orc modelName map_type ls).s.view_layer = ls.s.view_layer
    ∧ (processOne props orc modelName map_type ls).s.selected = ls.s.selected
    ∧ (processOne props orc modelName map_type ls).s.active_object = ls.s.active_object
    ∧ (processOne props orc modelName map_type ls).s.dirs = ls.s.dirs := by
  unfold processOne
  dsimp only
  have h0 := condRemove_frame (modelName ++ "_" ++ map_type) ls.s
  obtain ⟨h0f, h0c, h0v, h0s, h0a, h0d⟩ := h0
  have heff := bake_method_effects orc modelName (modelName ++ "_" ++ map_type) map_type
    (addImage (create_image (modelName ++ "_" ++ map_type) props.texture_size map_type)
      (if imageExists ls.s (modelName ++ "_" ++ map_type)
       then removeImage (modelName ++ "_" ++ map_type) ls.s else ls.s))
  rcases hbm : bake_method orc modelName (modelName ++ "_" ++ map_type) map_type
    (addImage (create_image (modelName ++ "_" ++ map_type) props.texture_size map_type)
      (if imageExists ls.s (modelName ++ "_" ++ map_type)
       then removeImage (modelName ++ "_" ++ map_type) ls.s else ls.s)) with ⟨ok, s2⟩
  rw [hbm] at heff
  dsimp only at heff
  obtain ⟨hok, hfiles, hcalls, hvl, hsel, hao, hdirs, hnames⟩ := heff
  rw [hpx] at hok
  simp only [Option.isSome_some] at hok
  subst hok
  dsimp only
  have Hf : s2.files = ls.s.files := by
    rw [hfiles, addImage_files]; exact h0f
  have Hc : s2.bake_calls = ls.s.bake_calls ++ [bakeTypeOf map_type] := by
    rw [hcalls, addImage_bake_calls, h0c]
  have Hv : s2.view_layer = ls.s.view_layer := by
    rw [hvl, addImage_view_layer]; exact h0v
  have Hs : s2.selected = ls.s.selected := by
    rw [hsel, addImage_selected]; exact h0s
  have Ha : s2.active_object = ls.s.active_object := by
    rw [hao, addImage_active_object]; exact h0a
  have Hd : s2.dirs = ls.s.dirs := by
    rw [hdirs, addImage_dirs]; exact h0d
  by_cases hN : map_type = "Normal"
  · rw [if_pos hN]
    rcases getImage s2 (modelName ++ "_" ++ map_type) with _ | img
    · exact ⟨rfl, Hf, Hc, rfl, Hv, Hs, Ha, Hd⟩
    · dsimp only
      by_cases hsolid : is_image_solid_color img
      · rw [if_pos hsolid]
        refine ⟨rfl, ?_, ?_, rfl, ?_, ?_, ?_, ?_⟩ <;>
          simp [Hf, Hc, Hv, Hs, Ha, Hd]
      · rw [if_neg hsolid]
        exact ⟨rfl, Hf, Hc, rfl, Hv, Hs, Ha, Hd⟩
  · rw [if_neg hN]
    exact ⟨rfl, Hf, Hc, rfl, Hv, Hs, Ha, Hd⟩

/-- One loop iteration never touches the selection frame fields. -/
theorem processOne_frame (props : Props) (orc : Orc) (modelName map_type : String)
    (ls : LoopSt) :
    (processOne props orc modelName map_type ls).s.view_layer = ls.s.view_layer
    ∧ (processOne props orc modelName map_type ls).s.selected = ls.s.selected
    ∧ (processOne props orc modelName map_type ls).s.active_object = ls.s.active_object := by
  rcases hb : orc.bake (bakeTypeOf map_type) with _ | px
  · have h := processOne_fail props orc modelName map_type ls hb
    exact ⟨h.2.2.2.2.2.1, h.2.2.2.2.2.2.1, h.2.2.2.2.2.2.2.1⟩
  · have h := processOne_ok props orc modelName map_type ls hb
    exact ⟨h.2.2.2.2.1, h.2.2.2.2.2.1, h.2.2.2.2.2.2.1⟩

/-- The per-map loop never touches the selection frame fields. -/
theorem processMaps_frame (props : Props) (orc : Orc) (modelName : String) :
    ∀ (L : List String) (ls : LoopSt),
      (processMaps props orc modelName L ls).s.view_layer = ls.s.view_layer
      ∧ (processMaps props orc modelName L ls).s.selected = ls.s.selected
      ∧ (processMaps props orc modelName L ls).s.active_object = ls.s.active_object := by
  intro L
  induction L with
  | nil => intro ls; exact ⟨rfl, rfl, rfl⟩
  | cons m rest ih =>
    intro ls
    simp only [processMaps]
    by_cases hm : shouldBakeMap props m = false
    · rw [if_pos hm]
      exact ih ls
    · rw [if_neg hm]
      have h1 := processOne_frame props orc modelName m ls
      by_cases hb : (processOne props orc modelName m ls).bake_successful = true
      · rw [if_pos hb]
        have h2 := ih (processOne props orc modelName m ls)
        exact ⟨h2.1.trans h1.1, h2.2.1.trans h1.2.1, h2.2.2.trans h1.2.2⟩
      · rw [if_neg hb]
        exact h1

/-- The loop stops at the first failing requested map: every earlier
requested map contributes exactly one bake call, the failing map's call
is the last one, its buffer is gone, and files stay untouched. -/
theorem processMaps_fail_run (props : Props) (orc : Orc) (modelName : String)
    (k : String) (L₂ : List String)
    (hk : shouldBakeMap props k = true)
    (hfail : orc.bake (bakeTypeOf k) = none) :
    ∀ (L₁ : List String),
      (∀ m ∈ L₁, shouldBakeMap props m = true → (orc.bake (bakeTypeOf m)).isSome = true) →
      ∀ (ls : LoopSt),
      (processMaps props orc modelName (L₁ ++ k :: L₂) ls).bake_successful = false
      ∧ (processMaps props orc modelName (L₁ ++ k :: L₂) ls).s.files = ls.s.files
      ∧ (processMaps props orc modelName (L₁ ++ k :: L₂) ls).s.bake_calls
          = ls.s.bake_calls
            ++ ((L₁.filter (fun m => shouldBakeMap props m)).map bakeTypeOf
                ++ [bakeTypeOf k])
      ∧ imageExists (processMaps props orc modelName (L₁ ++ k :: L₂) ls).s
          (modelName ++ "_" ++ k) = false
      ∧ (processMaps props orc modelName (L₁ ++ k :: L₂) ls).s.view_layer = ls.s.view_layer
      ∧ (processMaps props orc modelName (L₁ ++ k :: L₂) ls).s.selected = ls.s.selected
      ∧ (processMaps props orc modelName (L₁ ++ k :: L₂) ls).s.active_object
          = ls.s.active_object
      ∧ (processMaps props orc modelName (L₁ ++ k :: L₂) ls).s.dirs = ls.s.dirs := by
  intro L₁
  induction L₁ with
  | nil =>
    intro _ ls
    rw [List.nil_append]
    simp only [processMaps]
    rw [if_neg (by rw [hk]; simp)]
    have hpo := processOne_fail props orc modelName k ls hfail
    obtain ⟨hpo1, hpof, hpoc, hpoe, _, hpov, hpos, hpoa, hpod⟩ := hpo
    rw [if_neg (by rw [hpo1]; simp)]
    refine ⟨hpo1, hpof, ?_, hpoe, hpov, hpos, hpoa, hpod⟩
    rw [hpoc]
    simp
  | cons m L₁ ih =>
    intro hpre ls
    rw [List.cons_append]
    simp only [processMaps]
    by_cases hm : shouldBakeMap props m = false
    · rw [if_pos hm]
      have hfilt : (m :: L₁).filter (fun x => shouldBakeMap props x)
          = L₁.filter (fun x => shouldBakeMap props x) :=
        List.filter_cons_of_neg (by simpa using hm)
      rw [hfilt]
      exact ih (fun x hx hbx => hpre x (List.mem_cons_of_mem m hx) hbx) ls
    · rw [if_neg hm]
      have hms : shouldBakeMap props m = true := by
        cases h : shouldBakeMap props m
        · exact absurd h hm
        · rfl
      obtain ⟨px, hpx⟩ := Option.isSome_iff_exists.mp
        (hpre m (List.mem_cons_self m L₁) hms)
      have hpo := processOne_ok props orc modelName m ls hpx
      obtain ⟨hpo1, hpof, hpoc, _, hpov, hpos, hpoa, hpod⟩ := hpo
      rw [if_pos hpo1]
      have hrec := ih (fun x hx hbx => hpre x (List.mem_cons_of_mem m hx) hbx)
        (processOne props orc modelName m ls)
      obtain ⟨hr1, hrf, hrc, hre, hrv, hrs, hra, hrd⟩ := hrec
      have hfilt : (m :: L₁).filter (fun x => shouldBakeMap props x)
          = m :: L₁.filter (fun x => shouldBakeMap props x) :=
        List.filter_cons_of_pos (by simpa using hms)
      refine ⟨hr1, hrf.trans hpof, ?_, hre, hrv.trans hpov, hrs.trans hpos,
        hra.trans hpoa, hrd.trans hpod⟩
      rw [hrc, hpoc, hfilt]
      simp

/-- applyBakeSettings only touches scene settings and the selection. -/
theorem applyBakeSettings_facts (modelName : String) (s : BState) :
    (applyBakeSettings modelName s).files = s.files
    ∧ (applyBakeSettings modelName s).bake_calls = s.bake_calls
    ∧ (applyBakeSettings modelName s).view_layer = s.view_layer
    ∧ (applyBakeSettings modelName s).images = s.images
    ∧ (applyBakeSettings modelName s).dirs = s.dirs
    ∧ (applyBakeSettings modelName s).objs = s.objs
    ∧ (applyBakeSettings modelName s).reports = s.reports :=
  ⟨rfl, rfl, rfl, rfl, rfl, rfl, rfl⟩

/-- The material-slot check only adds reports and touches the active
material slot. -/
theorem slotCheck_frame (modelName : String) (material : Material) (s : BState) :
    (slotCheck modelName material s).2.scene = s.scene
    ∧ (slotCheck modelName material s).2.view_layer = s.view_layer
    ∧ (slotCheck modelName material s).2.selected = s.selected
    ∧ (slotCheck modelName material s).2.active_object = s.active_object
    ∧ (slotCheck modelName material s).2.images = s.images
    ∧ (slotCheck modelName material s).2.dirs = s.dirs
    ∧ (slotCheck modelName material s).2.files = s.files
    ∧ (slotCheck modelName material s).2.bake_calls = s.bake_calls := by
  unfold slotCheck
  rcases lookupObj s modelName with _ | model
  · exact ⟨rfl, rfl, rfl, rfl, rfl, rfl, rfl, rfl⟩
  · dsimp only
    by_cases h1 : ¬ model.active_material = some material
    · rw [if_pos h1]
      rcases model.material_slots.findIdx? (fun slot => slot = some material) with _ | i
      · exact ⟨rfl, rfl, rfl, rfl, rfl, rfl, rfl, rfl⟩
      · dsimp only
        rcases lookupObj (updObj modelName
            (fun o => { o with active_material := o.material_slots.getD i none }) s)
            modelName with _ | model1
        · exact ⟨rfl, rfl, rfl, rfl, rfl, rfl, rfl, rfl⟩
        · dsimp only
          by_cases h2 : model1.active_material = none
              ∨ ¬ model1.active_material = some material
          · rw [if_pos h2]
            exact ⟨rfl, rfl, rfl, rfl, rfl, rfl, rfl, rfl⟩
          · rw [if_neg h2]
            exact ⟨rfl, rfl, rfl, rfl, rfl, rfl, rfl, rfl⟩
    · rw [if_neg h1]
      by_cases h2 : model.active_material = none
          ∨ ¬ model.active_material = some material
      · rw [if_pos h2]
        exact ⟨rfl, rfl, rfl, rfl, rfl, rfl, rfl, rfl⟩
      · rw [if_neg h2]
        exact ⟨rfl, rfl, rfl, rfl, rfl, rfl, rfl, rfl⟩

/-- When the looked-up object already has the validated material active,
the slot check succeeds without changing the state. -/
theorem slotCheck_ok {s : BState} {modelName : String} {material : Material}
    {model : Obj} (hl : lookupObj s modelName = some model)
    (hm : model.active_material = some material) :
    slotCheck modelName material s = (true, s) := by
  unfold slotCheck
  rw [hl]
  dsimp only
  rw [if_neg (by rw [hm]; simp), if_neg (by rw [hm]; simp)]

/-- The save loop never touches scene, selection frame, dirs or the bake
trace. -/
theorem saveImages_frame (orc : Orc) (output_path : String) :
    ∀ (L : List String) (acc : Bool × BState),
      (saveImages orc output_path L acc).2.scene = acc.2.scene
      ∧ (saveImages orc output_path L acc).2.view_layer = acc.2.view_layer
      ∧ (saveImages orc output_path L acc).2.selected = acc.2.selected
      ∧ (saveImages orc output_path L acc).2.active_object = acc.2.active_object
      ∧ (saveImages orc output_path L acc).2.bake_calls = acc.2.bake_calls
      ∧ (saveImages orc output_path L acc).2.dirs = acc.2.dirs := by
  intro L
  induction L with
  | nil => intro acc; exact ⟨rfl, rfl, rfl, rfl, rfl, rfl⟩
  | cons nm rest ih =>
    intro acc
    simp only [saveImages]
    rcases getImage acc.2 nm with _ | img
    · exact ih acc
    · dsimp only
      rcases (saveOne (orc.save_ok nm) output_path img).2 with _ | f
      · exact ih (false, addReport (.errorSaveFailed nm)
          (setImage nm (saveOne (orc.save_ok nm) output_path img).1 acc.2))
      · exact ih (acc.1,
          { setImage nm (saveOne (orc.save_ok nm) output_path img).1 acc.2 with
            files := (setImage nm (saveOne (orc.save_ok nm) output_path img).1 acc.2).files
              ++ [f] })

/-- The cleanup loop only removes session images. -/
theorem cleanupImages_frame : ∀ (baked : List String) (s : BState),
    (cleanupImages baked s).scene = s.scene
    ∧ (cleanupImages baked s).view_layer = s.view_layer
    ∧ (cleanupImages baked s).selected = s.selected
    ∧ (cleanupImages baked s).active_object = s.active_object
    ∧ (cleanupImages baked s).files = s.files
    ∧ (cleanupImages baked s).bake_calls = s.bake_calls
    ∧ (cleanupImages baked s).dirs = s.dirs := by
  intro baked
  induction baked with
  | nil => intro s; exact ⟨rfl, rfl, rfl, rfl, rfl, rfl, rfl⟩
  | cons nm rest ih =>
    intro s
    have hstep : cleanupImages (nm :: rest) s
        = cleanupImages rest (if imageExists s nm then removeImage nm s else s) := rfl
    rw [hstep]
    by_cases h : imageExists s nm
    · rw [if_pos h]
      exact ih (removeImage nm s)
    · rw [if_neg h]
      exact ih s

/-- Cleanup cannot resurrect an absent session image. -/
theorem imageExists_cleanup_of_false :
    ∀ (baked : List String) (s : BState) (nm : String),
      imageExists s nm = false → imageExists (cleanupImages baked s) nm = false := by
  intro baked
  induction baked with
  | nil => intro s nm h; exact h
  | cons a rest ih =>
    intro s nm h
    have hstep : cleanupImages (a :: rest) s
        = cleanupImages rest (if imageExists s a then removeImage a s else s) := rfl
    rw [hstep]
    by_cases ha : imageExists s a
    · rw [if_pos ha]
      exact ih (removeImage a s) nm (imageExists_removeImage_of_false h)
    · rw [if_neg ha]
      exact ih s nm h

/-- restoreSettings restores the snapshot: engine, samples,
selected-to-active, and re-selects the surviving snapshotted objects;
images, files and the trace are untouched. -/
theorem restoreSettings_facts (e : String) (smp : Nat) (flag : Bool)
    (act : Option String) (sel : List String) (s : BState) :
    (restoreSettings e smp flag act sel s).scene.engine = e
    ∧ (restoreSettings e smp flag act sel s).scene.cycles_samples = smp
    ∧ (restoreSettings e smp flag act sel s).scene.use_selected_to_active = flag
    ∧ (restoreSettings e smp flag act sel s).selected
        = sel.filter (fun nm => s.view_layer.contains nm)
    ∧ (restoreSettings e smp flag act sel s).images = s.images
    ∧ (restoreSettings e smp flag act sel s).files = s.files
    ∧ (restoreSettings e smp flag act sel s).bake_calls = s.bake_calls
    ∧ (restoreSettings e smp flag act sel s).view_layer = s.view_layer := by
  unfold restoreSettings
  rcases act with _ | nm
  · exact ⟨rfl, rfl, rfl, rfl, rfl, rfl, rfl, rfl⟩
  · dsimp only
    by_cases h : s.view_layer.contains nm = true
    · rw [if_pos h]
      exact ⟨rfl, rfl, rfl, rfl, rfl, rfl, rfl, rfl⟩
    · rw [if_neg h]
      exact ⟨rfl, rfl, rfl, rfl, rfl, rfl, rfl, rfl⟩

/-- If the snapshotted active object survives in the view layer, it is
re-activated. -/
theorem restoreSettings_active (e : String) (smp : Nat) (flag : Bool)
    (nm : String) (sel : List String) (s : BState)
    (h : s.view_layer.contains nm = true) :
    (restoreSettings e smp flag (some nm) sel s).active_object = some nm := by
  unfold restoreSettings
  dsimp only
  rw [if_pos h]

/-- Claim C3: if baking requested map type k raises (the bake service
returns no pixels) while every requested map before k in the fixed order
Diffuse, Roughness, Normal, AO succeeded, then execute cancels; no map
after k is attempted (the recorded bake calls are exactly those of the
requested maps before k plus k's own), the save phase does not run (the
file list is unchanged), and no file is written for k — its partially
created image buffer is gone from the session; moreover the failing
iteration removes the buffer from the pending-save list. -/
theorem claim_C3 :
    (∀ (props : Props) (orc : Orc) (s : BState) (v : VCtx) (s1 : BState)
        (L₁ L₂ : List String) (k : String),
      validateRequirements s = (some v, s1) →
      map_types_order = L₁ ++ k :: L₂ →
      (s.dirs.contains (resolveOutputPath props) = true ∨ orc.makedirs_ok = true) →
      shouldBakeMap props k = true →
      orc.bake (bakeTypeOf k) = none →
      (∀ m ∈ L₁, shouldBakeMap props m = true → (orc.bake (bakeTypeOf m)).isSome = true) →
      ∃ s2, execute props orc s = .ok (.CANCELLED, s2)
        ∧ s2.files = s.files
        ∧ s2.bake_calls = s.bake_calls
            ++ ((L₁.filter (fun m => shouldBakeMap props m)).map bakeTypeOf
                ++ [bakeTypeOf k])
        ∧ imageExists s2 (v.modelName ++ "_" ++ k) = false)
    ∧ (∀ (props : Props) (orc : Orc) (modelName map_type : String) (ls : LoopSt),
      orc.bake (bakeTypeOf map_type) = none →
      (processOne props orc modelName map_type ls).baked_images
        = (ls.baked_images ++ [modelName ++ "_" ++ map_type]).erase
            (modelName ++ "_" ++ map_type)) := by
  constructor
  · intro props orc s v s1 L₁ L₂ k hval horder hmk hk hfail hpre
    have hpres := validateRequirements_preserves s
    rw [hval] at hpres
    dsimp only at hpres
    obtain ⟨hpsc, hpvl, hpsel, hpact, hpimg, hpdirs, hpfiles, hpcalls⟩ := hpres
    obtain ⟨model, hA, hvm, model1, hl1, hm1⟩ := validateRequirements_success_ctx hval
    unfold execute
    rw [hval]
    dsimp only
    have hdeq : (applyBakeSettings v.modelName s1).dirs = s.dirs := by
      rw [(applyBakeSettings_facts v.modelName s1).2.2.2.2.1, hpdirs]
    have hguard : ¬ (¬ (applyBakeSettings v.modelName s1).dirs.contains
        (resolveOutputPath props) = true ∧ ¬ orc.makedirs_ok = true) := by
      rcases hmk with hmk | hmk
      · intro hc
        exact hc.1 (by rw [hdeq]; exact hmk)
      · intro hc
        exact hc.2 hmk
    rw [if_neg hguard]
    by_cases hdc : (applyBakeSettings v.modelName s1).dirs.contains
        (resolveOutputPath props) = true
    · rw [if_pos hdc]
      have hl3 : lookupObj (applyBakeSettings v.modelName s1) v.modelName
          = some model1 := hl1
      rw [slotCheck_ok hl3 hm1]
      dsimp only
      rw [horder]
      have hrun := processMaps_fail_run props orc v.modelName k L₂ hk hfail L₁ hpre
        ⟨applyBakeSettings v.modelName s1, true, []⟩
      rcases hls : processMaps props orc v.modelName (L₁ ++ k :: L₂)
        ⟨applyBakeSettings v.modelName s1, true, []⟩ with ⟨rs, rok, rbaked⟩
      rw [hls] at hrun
      dsimp only at hrun
      obtain ⟨hrok, hrf, hrc, hre, hrv, hrs2, hra, hrd⟩ := hrun
      subst hrok
      dsimp only
      rw [if_neg (by simp)]
      rw [if_neg (by simp)]
      refine ⟨_, rfl, ?_, ?_, ?_⟩
      · rw [addReport_files,
          (restoreSettings_facts s1.scene.engine s1.scene.cycles_samples
            s1.scene.use_selected_to_active s1.active_object s1.selected
            (cleanupImages rbaked rs)).2.2.2.2.2.1,
          (cleanupImages_frame rbaked rs).2.2.2.2.1, hrf]
        exact hpfiles
      · rw [addReport_bake_calls,
          (restoreSettings_facts s1.scene.engine s1.scene.cycles_samples
            s1.scene.use_selected_to_active s1.active_object s1.selected
            (cleanupImages rbaked rs)).2.2.2.2.2.2.1,
          (cleanupImages_frame rbaked rs).2.2.2.2.2.1, hrc, ← hpcalls]
        rfl
      · rw [imageExists_addReport]
        have h5 : imageExists (cleanupImages rbaked rs) (v.modelName ++ "_" ++ k)
            = false := imageExists_cleanup_of_false rbaked rs _ hre
        have h6 : imageExists
            (restoreSettings s1.scene.engine s1.scene.cycles_samples
              s1.scene.use_selected_to_active s1.active_object s1.selected
              (cleanupImages rbaked rs)) (v.modelName ++ "_" ++ k)
            = imageExists (cleanupImages rbaked rs) (v.modelName ++ "_" ++ k) := by
          unfold imageExists
          rw [(restoreSettings_facts s1.scene.engine s1.scene.cycles_samples
            s1.scene.use_selected_to_active s1.active_object s1.selected
            (cleanupImages rbaked rs)).2.2.2.2.1]
        rw [h6]
        exact h5
    · rw [if_neg hdc]
      have hl3 : lookupObj
          { applyBakeSettings v.modelName s1 with
            dirs := (applyBakeSettings v.modelName s1).dirs ++ [resolveOutputPath props] }
          v.modelName = some model1 := hl1
      rw [slotCheck_ok hl3 hm1]
      dsimp only
      rw [horder]
      have hrun := processMaps_fail_run props orc v.modelName k L₂ hk hfail L₁ hpre
        ⟨{ applyBakeSettings v.modelName s1 with
            dirs := (applyBakeSettings v.modelName s1).dirs ++ [resolveOutputPath props] },
          true, []⟩
      rcases hls : processMaps props orc v.modelName (L₁ ++ k :: L₂)
        ⟨{ applyBakeSettings v.modelName s1 with
            dirs := (applyBakeSettings v.modelName s1).dirs ++ [resolveOutputPath props] },
          true, []⟩ with ⟨rs, rok, rbaked⟩
      rw [hls] at hrun
      dsimp only at hrun
      obtain ⟨hrok, hrf, hrc, hre, hrv, hrs2, hra, hrd⟩ := hrun
      subst hrok
      dsimp only
      rw [if_neg (by simp)]
      rw [if_neg (by simp)]
      refine ⟨_, rfl, ?_, ?_, ?_⟩
      · rw [addReport_files,
          (restoreSettings_facts s1.scene.engine s1.scene.cycles_samples
            s1.scene.use_selected_to_active s1.active_object s1.selected
            (cleanupImages rbaked rs)).2.2.2.2.2.1,
          (cleanupImages_frame rbaked rs).2.2.2.2.1, hrf]
        exact hpfiles
      · rw [addReport_bake_calls,
          (restoreSettings_facts s1.scene.engine s1.scene.cycles_samples
            s1.scene.use_selected_to_active s1.active_object s1.selected
            (cleanupImages rbaked rs)).2.2.2.2.2.2.1,
          (cleanupImages_frame rbaked rs).2.2.2.2.2.1, hrc, ← hpcalls]
        rfl
      · rw [imageExists_addReport]
        have h5 : imageExists (cleanupImages rbaked rs) (v.modelName ++ "_" ++ k)
            = false := imageExists_cleanup_of_false rbaked rs _ hre
        have h6 : imageExists
            (restoreSettings s1.scene.engine s1.scene.cycles_samples
              s1.scene.use_selected_to_active s1.active_object s1.selected
              (cleanupImages rbaked rs)) (v.modelName ++ "_" ++ k)
            = imageExists (cleanupImages rbaked rs) (v.modelName ++ "_" ++ k) := by
          unfold imageExists
          rw [(restoreSettings_facts s1.scene.engine s1.scene.cycles_samples
            s1.scene.use_selected_to_active s1.active_object s1.selected
            (cleanupImages rbaked rs)).2.2.2.2.1]
        rw [h6]
        exact h5
  · intro props orc modelName map_type ls hfail
    exact (processOne_fail props orc modelName map_type ls hfail).2.2.2.2.1

theorem claim_C3_witness :
    (∃ s2, execute c3props c3orc c8state = .ok (.CANCELLED, s2)
      ∧ s2.files = c8state.files
      ∧ s2.bake_calls = c8state.bake_calls
          ++ ((["Diffuse"].filter (fun m => shouldBakeMap c3props m)).map bakeTypeOf
              ++ [bakeTypeOf "Roughness"])
      ∧ imageExists s2
          ((VCtx.mk "Cube" c8mat c8nodeB).modelName ++ "_" ++ "Roughness") = false) :=
  claim_C3.1 c3props c3orc c8state (VCtx.mk "Cube" c8mat c8nodeB) c8state
    ["Diffuse"] ["Normal", "AO"] "Roughness" (by decide) (by decide)
    (Or.inr rfl) (by decide) (by decide) (by decide)

/-- Claim C2 is refuted by the code: on a valid scene whose output
directory cannot be created (a setup-phase exception), execute does NOT
restore the snapshotted settings and does NOT return a failure status.
The handler at source line 168 catches the setup exception, but the
finally block first iterates `baked_images` (line 177), which was never
assigned (its only assignment, line 105, sits after the failing setup
code), so execute raises UnboundLocalError before reaching the restore
statements (lines 186-200): the escaping state still carries the forced
CYCLES engine, 32 samples and cleared selected-to-active flag, against
snapshotted values BLENDER_EEVEE / 128 / true. -/
theorem claim_C2 :
    ∃ sErr, execute c3props c2orc c8state = .error (.unboundLocal sErr)
      ∧ (∀ r : BStatus × BState, ¬ execute c3props c2orc c8state = .ok r)
      ∧ sErr.scene.engine = "CYCLES"
      ∧ c8state.scene.engine = "BLENDER_EEVEE"
      ∧ sErr.scene.cycles_samples = 32
      ∧ c8state.scene.cycles_samples = 128
      ∧ sErr.scene.use_selected_to_active = false
      ∧ c8state.scene.use_selected_to_active = true
      ∧ Report.errorSetup ∈ sErr.reports := by
  have heq : execute c3props c2orc c8state
      = .error (.unboundLocal
          (addReport .errorSetup (applyBakeSettings "Cube" c8state))) := by rfl
  refine ⟨addReport .errorSetup (applyBakeSettings "Cube" c8state), heq,
    ?_, by decide, by decide, by decide, by decide, by decide, by decide, by decide⟩
  intro r h
  rw [heq] at h
  exact Except.noConfusion h

/-- Fields of the teardown tail (cleanup, then restore) of execute's
success paths, relative to the invocation state s. -/
theorem restore_tail_fields (s s1 prs : BState) (rbaked : List String)
    (hvl : prs.view_layer = s.view_layer)
    (hps1 : s1.scene = s.scene) (hps2 : s1.selected = s.selected)
    (hps3 : s1.active_object = s.active_object)
    (hsel : ∀ nm ∈ s.selected, s.view_layer.contains nm = true)
    (hact : ∀ nm, s.active_object = some nm → s.view_layer.contains nm = true)
    (hsome : ∃ anm, s.active_object = some anm) :
    (restoreSettings s1.scene.engine s1.scene.cycles_samples
      s1.scene.use_selected_to_active s1.active_object s1.selected
      (cleanupImages rbaked prs)).scene.engine = s.scene.engine
    ∧ (restoreSettings s1.scene.engine s1.scene.cycles_samples
        s1.scene.use_selected_to_active s1.active_object s1.selected
        (cleanupImages rbaked prs)).scene.cycles_samples = s.scene.cycles_samples
    ∧ (restoreSettings s1.scene.engine s1.scene.cycles_samples
        s1.scene.use_selected_to_active s1.active_object s1.selected
        (cleanupImages rbaked prs)).scene.use_selected_to_active
          = s.scene.use_selected_to_active
    ∧ (restoreSettings s1.scene.engine s1.scene.cycles_samples
        s1.scene.use_selected_to_active s1.active_object s1.selected
        (cleanupImages rbaked prs)).selected = s.selected
    ∧ (restoreSettings s1.scene.engine s1.scene.cycles_samples
        s1.scene.use_selected_to_active s1.active_object s1.selected
        (cleanupImages rbaked prs)).active_object = s.active_object := by
  obtain ⟨anm, hao⟩ := hsome
  have hVL : (cleanupImages rbaked prs).view_layer = s.view_layer :=
    (cleanupImages_frame rbaked prs).2.1.trans hvl
  have hrsf := restoreSettings_facts s1.scene.engine s1.scene.cycles_samples
    s1.scene.use_selected_to_active s1.active_object s1.selected
    (cleanupImages rbaked prs)
  refine ⟨?_, ?_, ?_, ?_, ?_⟩
  · rw [hrsf.1, hps1]
  · rw [hrsf.2.1, hps1]
  · rw [hrsf.2.2.1, hps1]
  · rw [hrsf.2.2.2.1, hVL, hps2]
    exact List.filter_eq_self.mpr hsel
  · rw [hps3, hao]
    rw [restoreSettings_active s1.scene.engine s1.scene.cycles_samples
      s1.scene.use_selected_to_active anm s1.selected (cleanupImages rbaked prs)
      (by rw [hVL]; exact hact anm hao)]

/-- Claim C1: whenever execute returns an operator status, the render
engine, the Cycles sample count, the bake selected-to-active flag, the
selection set and the active object are identical to their values at
invocation time (stated under the Blender invariant that the selected
and active objects belong to the view layer; on valid inputs the
teardown restores the snapshot taken at source lines 46-51, and on
validation failure nothing was ever modified). -/
theorem claim_C1 (props : Props) (orc : Orc) (s : BState) (r : BStatus × BState)
    (hsel : ∀ nm ∈ s.selected, s.view_layer.contains nm = true)
    (hact : ∀ nm, s.active_object = some nm → s.view_layer.contains nm = true)
    (hret : execute props orc s = .ok r) :
    r.2.scene.engine = s.scene.engine
    ∧ r.2.scene.cycles_samples = s.scene.cycles_samples
    ∧ r.2.scene.use_selected_to_active = s.scene.use_selected_to_active
    ∧ r.2.selected = s.selected
    ∧ r.2.active_object = s.active_object := by
  unfold execute at hret
  rcases hval : validateRequirements s with ⟨vo, s1⟩
  rw [hval] at hret
  have hpres := validateRequirements_preserves s
  rw [hval] at hpres
  dsimp only at hpres
  obtain ⟨hpsc, hpvl, hpsel, hpact, hpimg, hpdirs, hpfiles, hpcalls⟩ := hpres
  rcases vo with _ | v
  · dsimp only at hret
    injection hret with hret
    subst hret
    exact ⟨by rw [hpsc], by rw [hpsc], by rw [hpsc], hpsel, hpact⟩
  · dsimp only at hret
    obtain ⟨model, hA, hvm, model1, hl1, hm1⟩ := validateRequirements_success_ctx hval
    have hsome : ∃ anm, s.active_object = some anm :=
      ⟨model.name, (getActiveObj_eq_some hA).1⟩
    by_cases hmk : ¬ (applyBakeSettings v.modelName s1).dirs.contains
        (resolveOutputPath props) = true ∧ ¬ orc.makedirs_ok = true
    · rw [if_pos hmk] at hret
      exact Except.noConfusion hret
    · rw [if_neg hmk] at hret
      by_cases hdc : (applyBakeSettings v.modelName s1).dirs.contains
          (resolveOutputPath props) = true
      · rw [if_pos hdc] at hret
        rcases hsc : slotCheck v.modelName v.material (applyBakeSettings v.modelName s1)
          with ⟨ok4, s4⟩
        have hscf := slotCheck_frame v.modelName v.material
          (applyBakeSettings v.modelName s1)
        rw [hsc] at hret hscf
        dsimp only at hscf
        obtain ⟨hsc1, hsc2, hsc3, hsc4, _, _, _, _⟩ := hscf
        cases ok4
        · dsimp only at hret
          exact Except.noConfusion hret
        · dsimp only at hret
          have hpmf := processMaps_frame props orc v.modelName map_types_order
            ⟨s4, true, []⟩
          rcases hls : processMaps props orc v.modelName map_types_order ⟨s4, true, []⟩
            with ⟨rs, rok, rbaked⟩
          rw [hls] at hret hpmf
          dsimp only at hret hpmf
          obtain ⟨hpm1, hpm2, hpm3⟩ := hpmf
          by_cases hsv : rok = true ∧ ¬ rbaked = []
          · rw [if_pos hsv] at hret
            rcases hpr : saveImages orc (resolveOutputPath props) rbaked (rok, rs)
              with ⟨prb, prs⟩
            have hsf := saveImages_frame orc (resolveOutputPath props) rbaked (rok, rs)
            rw [hpr] at hret hsf
            dsimp only at hret hsf
            have htail := restore_tail_fields s s1 prs rbaked
              (by rw [hsf.2.1, hpm1, hsc2]; exact hpvl) hpsc hpsel hpact hsel hact hsome
            by_cases hpb : prb = true
            · rw [if_pos hpb] at hret
              injection hret with hret
              subst hret
              exact ⟨htail.1, htail.2.1, htail.2.2.1, htail.2.2.2.1, htail.2.2.2.2⟩
            · rw [if_neg hpb] at hret
              injection hret with hret
              subst hret
              exact ⟨htail.1, htail.2.1, htail.2.2.1, htail.2.2.2.1, htail.2.2.2.2⟩
          · rw [if_neg hsv] at hret
            have htail := restore_tail_fields s s1 rs rbaked
              (by rw [hpm1, hsc2]; exact hpvl) hpsc hpsel hpact hsel hact hsome
            by_cases hpb : rok = true
            · rw [if_pos hpb] at hret
              injection hret with hret
              subst hret
              exact ⟨htail.1, htail.2.1, htail.2.2.1, htail.2.2.2.1, htail.2.2.2.2⟩
            · rw [if_neg hpb] at hret
              injection hret with hret
              subst hret
              exact ⟨htail.1, htail.2.1, htail.2.2.1, htail.2.2.2.1, htail.2.2.2.2⟩
      · rw [if_neg hdc] at hret
        rcases hsc : slotCheck v.modelName v.material
            { applyBakeSettings v.modelName s1 with
              dirs := (applyBakeSettings v.modelName s1).dirs
                ++ [resolveOutputPath props] }
          with ⟨ok4, s4⟩
        have hscf := slotCheck_frame v.modelName v.material
          { applyBakeSettings v.modelName s1 with
            dirs := (applyBakeSettings v.modelName s1).dirs
              ++ [resolveOutputPath props] }
        rw [hsc] at hret hscf
        dsimp only at hscf
        obtain ⟨hsc1, hsc2, hsc3, hsc4, _, _, _, _⟩ := hscf
        cases ok4
        · dsimp only at hret
          exact Except.noConfusion hret
        · dsimp only at hret
          have hpmf := processMaps_frame props orc v.modelName map_types_order
            ⟨s4, true, []⟩
          rcases hls : processMaps props orc v.modelName map_types_order ⟨s4, true, []⟩
            with ⟨rs, rok, rbaked⟩
          rw [hls] at hret hpmf
          dsimp only at hret hpmf
          obtain ⟨hpm1, hpm2, hpm3⟩ := hpmf
          by_cases hsv : rok = true ∧ ¬ rbaked = []
          · rw [if_pos hsv] at hret
            rcases hpr : saveImages orc (resolveOutputPath props) rbaked (rok, rs)
              with ⟨prb, prs⟩
            have hsf := saveImages_frame orc (resolveOutputPath props) rbaked (rok, rs)
            rw [hpr] at hret hsf
            dsimp only at hret hsf
            have htail := restore_tail_fields s s1 prs rbaked
              (by rw [hsf.2.1, hpm1, hsc2]; exact hpvl) hpsc hpsel hpact hsel hact hsome
            by_cases hpb : prb = true
            · rw [if_pos hpb] at hret
              injection hret with hret
              subst hret
              exact ⟨htail.1, htail.2.1, htail.2.2.1, htail.2.2.2.1, htail.2.2.2.2⟩
            · rw [if_neg hpb] at hret
              injection hret with hret
              subst hret
              exact ⟨htail.1, htail.2.1, htail.2.2.1, htail.2.2.2.1, htail.2.2.2.2⟩
          · rw [if_neg hsv] at hret
            have htail := restore_tail_fields s s1 rs rbaked
              (by rw [hpm1, hsc2]; exact hpvl) hpsc hpsel hpact hsel hact hsome
            by_cases hpb : rok = true
            · rw [if_pos hpb] at hret
              injection hret with hret
              subst hret
              exact ⟨htail.1, htail.2.1, htail.2.2.1, htail.2.2.2.1, htail.2.2.2.2⟩
            · rw [if_neg hpb] at hret
              injection hret with hret
              subst hret
              exact ⟨htail.1, htail.2.1, htail.2.2.1, htail.2.2.2.1, htail.2.2.2.2⟩

/-- Claim C1 witness: a concrete finished run whose final state carries
the invocation-time engine, samples, flag, selection and active object. -/
theorem claim_C1_witness :
    (∀ nm ∈ c8state.selected, c8state.view_layer.contains nm = true)
    ∧ (execute c1props failOrc c8state = .ok c1result)
    ∧ (c1result.2.scene.engine = c8state.scene.engine
        ∧ c1result.2.scene.cycles_samples = c8state.scene.cycles_samples
        ∧ c1result.2.scene.use_selected_to_active
            = c8state.scene.use_selected_to_active
        ∧ c1result.2.selected = c8state.selected
        ∧ c1result.2.active_object = c8state.active_object) :=
  ⟨by decide, rfl,
    claim_C1 c1props failOrc c8state c1result (by decide)
      (by
        intro nm h
        injection h with h
        subst h
        decide)
      rfl⟩

end BsdfBaker
